import Mathlib

/-!
Shallow embedding of the BigFlix backend availability/request core.

The definitions below translate, function by function, the JavaScript code in
`backend/src/routes/search.js` and `backend/src/routes/requests.js`.  Remote
HTTP calls are modelled as environment fields of type `Except Unit _` (an
`error` value stands for a transport error or timeout that the surrounding
`try`/`catch` would absorb); JavaScript truthiness on possibly-absent values is
made explicit through small helper functions; the module-level `Map` used as
the availability cache is modelled as an association list threaded through the
checker functions.
-/

namespace BigFlix

/-- JavaScript truthiness of a possibly-absent string: `null`/`undefined` and
the empty string are falsy. -/
def jsTruthyStr : Option String → Bool
  | none => false
  | some s => !(s == "")

/-- JavaScript truthiness of a possibly-absent number: `null`/`undefined` and
`0` are falsy. -/
def jsTruthyNat : Option Nat → Bool
  | none => false
  | some n => !(n == 0)

/-! ## Availability cache (`search.js`, `availabilityCache` / `CACHE_TTL`) -/

/-- A record returned by a Plex section listing: title plus optional year. -/
structure PlexRecord where
  title : String
  year : Option Nat
deriving DecidableEq, Repr

/-- The value returned by `checkPlexMovie` / `checkPlexTv`: the `exists`
flag together with the matched record (the code's `{ exists, movie }` /
`{ exists, show }` object). -/
structure PlexResult where
  found : Bool
  record : Option PlexRecord
deriving DecidableEq, Repr

/-- A value stored in the shared `availabilityCache` map: either a Plex
presence result or a download-manager status string (possibly null). -/
inductive CacheVal
  | plex (r : PlexResult)
  | mgr (s : Option String)
deriving DecidableEq, Repr

/-- A cache entry: the stored data plus its insertion timestamp
(`\x7b data, timestamp \x7d` in the code). -/
structure CacheEntry where
  data : CacheVal
  timestamp : Nat
deriving DecidableEq, Repr

/-- The availability cache, a string-keyed map modelled as an association
list in which the most recent insertion for a key shadows older ones. -/
abbrev Cache := List (String × CacheEntry)

/-- Cache freshness window: 5 minutes in milliseconds (`CACHE_TTL`). -/
def CACHE_TTL : Nat := 5 * 60 * 1000

/-- `availabilityCache.get(key)`. -/
def cacheGet (c : Cache) (key : String) : Option CacheEntry :=
  (c.find? (fun p => p.1 == key)).map (fun p => p.2)

/-- `availabilityCache.set(key, \x7b data, timestamp: Date.now() \x7d)`. -/
def cacheSet (c : Cache) (key : String) (v : CacheVal) (now : Nat) : Cache :=
  (key, ⟨v, now⟩) :: c

/-- The read pattern used by every checker:
`cached && Date.now() - cached.timestamp < CACHE_TTL` yields the cached data,
otherwise the entry is ignored (lazy expiry; timestamps use `Nat`
subtraction, matching a clock that never runs backwards). -/
def freshGet (c : Cache) (now : Nat) (key : String) : Option CacheVal :=
  match cacheGet c key with
  | none => none
  | some e => if now - e.timestamp < CACHE_TTL then some e.data else none

/-- Reading a Plex-shaped value out of the heterogeneous cache (the code
returns `cached.data` untyped; a manager-shaped value under a Plex key cannot
arise because key prefixes are disjoint). -/
def asPlexResult : CacheVal → PlexResult
  | .plex r => r
  | .mgr _ => ⟨false, none⟩

/-- Reading a manager-status value out of the heterogeneous cache. -/
def asMgrStatus : CacheVal → Option String
  | .mgr s => s
  | .plex _ => none

/-! ## Library presence checker (`checkPlexMovie` / `checkPlexTv`) -/

/-- One entry of the Plex `/library/sections` response: section type and key. -/
structure PlexSection where
  type : String
  key : Nat
deriving DecidableEq, Repr

/-- Environment of one Plex presence check: whether the server row exists in
the database, the outcome of the sections request, and the outcome of each
per-section listing request. -/
structure PlexEnv where
  serverExists : Bool
  sections : Except Unit (List PlexSection)
  listSection : Nat → Except Unit (List PlexRecord)

/-- JavaScript `toLowerCase()`, modelled character by character. -/
def strLower (s : String) : String := String.mk (s.data.map Char.toLower)

/-- The movie match predicate inside `checkPlexMovie`:
`m.title.toLowerCase() === title.toLowerCase()` and
`!year || m.year === parseInt(year)` (the year test is skipped exactly when
the *supplied* year is absent). -/
def movieTitleYearMatch (title : String) (year : Option Nat) (m : PlexRecord) : Bool :=
  (strLower m.title == strLower title) &&
    (match year with
     | none => true
     | some y => m.year == some y)

/-- The show match predicate inside `checkPlexTv`; textually identical logic
to the movie variant. -/
def showTitleYearMatch (title : String) (year : Option Nat) (m : PlexRecord) : Bool :=
  (strLower m.title == strLower title) &&
    (match year with
     | none => true
     | some y => m.year == some y)

/-- String interpolation of an optional year into a cache key (an absent
JavaScript value prints as `undefined`). -/
def yearKeyPart : Option Nat → String
  | none => "undefined"
  | some y => toString y

/-- Cache key of `checkPlexMovie`. -/
def plexMovieKey (serverId : String) (title : String) (year : Option Nat) : String :=
  "plex_movie_" ++ serverId ++ "_" ++ title ++ "_" ++ yearKeyPart year

/-- Cache key of `checkPlexTv`. -/
def plexTvKey (serverId : String) (title : String) (year : Option Nat) : String :=
  "plex_tv_" ++ serverId ++ "_" ++ title ++ "_" ++ yearKeyPart year

/-- The per-section scan loop of `checkPlexMovie`: request each movie section
in turn and return the first matching record; a failed request throws to the
surrounding catch. -/
def plexScan (listSection : Nat → Except Unit (List PlexRecord))
    (matchRec : PlexRecord → Bool) : List Nat → Except Unit (Option PlexRecord)
  | [] => .ok none
  | k :: rest =>
    match listSection k with
    | .error e => .error e
    | .ok recs =>
      match recs.find? matchRec with
      | some m => .ok (some m)
      | none => plexScan listSection matchRec rest

/-- `checkPlexMovie(serverId, title, year)`.  Returns the presence result, the
updated cache, and whether any remote request was issued.  A transport error
lands in the catch branch, which returns `exists:false` without touching the
cache. -/
def checkPlexMovie (env : PlexEnv) (now : Nat) (cache : Cache)
    (serverId : String) (title : String) (year : Option Nat) :
    PlexResult × Cache × Bool :=
  let key := plexMovieKey serverId title year
  match freshGet cache now key with
  | some v => (asPlexResult v, cache, false)
  | none =>
    if env.serverExists then
      match env.sections with
      | .error _ => (⟨false, none⟩, cache, true)
      | .ok dirs =>
        let movieSections := (dirs.filter (fun d => d.type == "movie")).map (fun d => d.key)
        match plexScan env.listSection (movieTitleYearMatch title year) movieSections with
        | .error _ => (⟨false, none⟩, cache, true)
        | .ok (some m) =>
          let r : PlexResult := ⟨true, some m⟩
          (r, cacheSet cache key (.plex r) now, true)
        | .ok none =>
          let r : PlexResult := ⟨false, none⟩
          (r, cacheSet cache key (.plex r) now, true)
    else (⟨false, none⟩, cache, false)

/-- `checkPlexTv(serverId, title, year)`; identical control flow on show
sections. -/
def checkPlexTv (env : PlexEnv) (now : Nat) (cache : Cache)
    (serverId : String) (title : String) (year : Option Nat) :
    PlexResult × Cache × Bool :=
  let key := plexTvKey serverId title year
  match freshGet cache now key with
  | some v => (asPlexResult v, cache, false)
  | none =>
    if env.serverExists then
      match env.sections with
      | .error _ => (⟨false, none⟩, cache, true)
      | .ok dirs =>
        let tvSections := (dirs.filter (fun d => d.type == "show")).map (fun d => d.key)
        match plexScan env.listSection (showTitleYearMatch title year) tvSections with
        | .error _ => (⟨false, none⟩, cache, true)
        | .ok (some m) =>
          let r : PlexResult := ⟨true, some m⟩
          (r, cacheSet cache key (.plex r) now, true)
        | .ok none =>
          let r : PlexResult := ⟨false, none⟩
          (r, cacheSet cache key (.plex r) now, true)
    else (⟨false, none⟩, cache, false)

/-! ## Download-manager status checkers (`checkRadarrMovie` / `checkSonarrSeries`) -/

/-- One movie row of the Radarr `/api/v3/movie` response, restricted to the
fields the code inspects. -/
structure RadarrMovieRec where
  id : Nat
  tmdbId : Nat
  hasFile : Bool
  monitored : Bool
  status : String
deriving DecidableEq, Repr

/-- Environment of one Radarr status check: whether the server row exists and
carries Radarr credentials, plus the outcomes of the movie-list and queue
requests (queue entries are the `movieId` fields of its records). -/
structure RadarrEnv where
  configured : Bool
  movies : Except Unit (List RadarrMovieRec)
  queue : Except Unit (List Nat)

/-- Cache key of `checkRadarrMovie`. -/
def radarrKey (serverId : String) (tmdbId : Nat) : String :=
  "radarr_" ++ serverId ++ "_" ++ toString tmdbId

/-- `checkRadarrMovie(serverId, tmdbId)`.  Classifies the movie as
downloaded / queued / missing / unreleased / null and caches the (possibly
null) answer; a transport error returns null without caching. -/
def checkRadarrMovie (env : RadarrEnv) (now : Nat) (cache : Cache)
    (serverId : String) (tmdbId : Nat) : Option String × Cache × Bool :=
  let key := radarrKey serverId tmdbId
  match freshGet cache now key with
  | some v => (asMgrStatus v, cache, false)
  | none =>
    if env.configured then
      match env.movies with
      | .error _ => (none, cache, true)
      | .ok ms =>
        match ms.find? (fun m => m.tmdbId == tmdbId) with
        | none => (none, cacheSet cache key (.mgr none) now, true)
        | some m =>
          if m.hasFile then
            (some "downloaded", cacheSet cache key (.mgr (some "downloaded")) now, true)
          else if m.monitored then
            match env.queue with
            | .error _ => (none, cache, true)
            | .ok q =>
              let st :=
                if q.any (fun i => i == m.id) then "queued"
                else if m.status == "released" then "missing" else "unreleased"
              (some st, cacheSet cache key (.mgr (some st)) now, true)
          else (none, cacheSet cache key (.mgr none) now, true)
    else (none, cache, false)

/-- One series row of the Sonarr `/api/v3/series` response, restricted to the
fields any route inspects (`statistics.percentOfEpisodes` flattened). -/
structure SonarrSeriesRec where
  title : String
  tvdbId : Option Nat
  percentOfEpisodes : Option Nat
deriving DecidableEq, Repr

/-- Environment of one Sonarr status check. -/
structure SonarrEnv where
  configured : Bool
  series : Except Unit (List SonarrSeriesRec)

/-- Cache key of `checkSonarrSeries`. -/
def sonarrKey (serverId : String) (tmdbId : Nat) : String :=
  "sonarr_" ++ serverId ++ "_" ++ toString tmdbId

/-- `checkSonarrSeries(serverId, tmdbId)`.  The code fetches the full series
list, never inspects it (its comment: no TMDB-to-TVDB conversion is done for
now), sets `status = null`, caches the null and returns it; a transport error
returns null without caching. -/
def checkSonarrSeries (env : SonarrEnv) (now : Nat) (cache : Cache)
    (serverId : String) (tmdbId : Nat) : Option String × Cache × Bool :=
  let key := sonarrKey serverId tmdbId
  match freshGet cache now key with
  | some v => (asMgrStatus v, cache, false)
  | none =>
    if env.configured then
      match env.series with
      | .error _ => (none, cache, true)
      | .ok _ => (none, cacheSet cache key (.mgr none) now, true)
    else (none, cache, false)

/-! ## Availability aggregation (`checkMovieAvailability` / `checkTvAvailability`)

The aggregation loop is embedded with the two per-server checkers abstracted
as the values they return for this item (`plexCheck s` is the awaited
`checkPlexMovie(s, ...)` result for server `s`, `radarrCheck s` the awaited
`checkRadarrMovie(s, ...)` result); the loop body and the final status
reduction follow the source line by line. -/

/-- One element of `user.servers`: server id and display name. -/
structure ServerRef where
  id : String
  name : String
deriving DecidableEq, Repr

/-- The fields of `req.user` that the aggregation reads. -/
structure SearchUser where
  servers : List ServerRef
  primaryServerId : Option String
deriving DecidableEq, Repr

/-- The accumulator object of `checkMovieAvailability`. -/
structure MovieAvailabilityResult where
  status : String
  plexAvailable : Bool
  plexServers : List String
  radarrStatus : Option String
  inRssFeed : Bool
deriving DecidableEq, Repr

/-- The `for (const server of servers)` loop of `checkMovieAvailability`:
mark Plex presence per server, and record the Radarr status when the server
is the user's primary one and the checker's answer is truthy. -/
def movieAvailLoop (plexCheck : String → PlexResult) (radarrCheck : String → Option String)
    (primary : Option String) :
    List ServerRef → MovieAvailabilityResult → MovieAvailabilityResult
  | [], acc => acc
  | s :: rest, acc =>
    let acc1 :=
      if (plexCheck s.id).found then
        { acc with plexAvailable := true, plexServers := acc.plexServers ++ [s.name] }
      else acc
    let acc2 :=
      if primary == some s.id then
        match radarrCheck s.id with
        | some st => if st == "" then acc1 else { acc1 with radarrStatus := some st }
        | none => acc1
      else acc1
    movieAvailLoop plexCheck radarrCheck primary rest acc2

/-- `checkMovieAvailability(movie, user)`: run the per-server loop, look up
the RSS tracking record, then reduce to the overall status with the
first-match-wins chain of the source. -/
def checkMovieAvailability (plexCheck : String → PlexResult)
    (radarrCheck : String → Option String) (user : SearchUser) (inRss : Bool) :
    MovieAvailabilityResult :=
  let r := movieAvailLoop plexCheck radarrCheck user.primaryServerId user.servers
    ⟨"unknown", false, [], none, false⟩
  let r := { r with inRssFeed := inRss }
  { r with status :=
      if r.plexAvailable then "available"
      else if jsTruthyStr r.radarrStatus then r.radarrStatus.getD ""
      else if r.inRssFeed then "requested"
      else "not_available" }

/-- The accumulator object of `checkTvAvailability`. -/
structure TvAvailabilityResult where
  status : String
  plexAvailable : Bool
  plexServers : List String
  sonarrStatus : Option String
  inRssFeed : Bool
deriving DecidableEq, Repr

/-- The per-server loop of `checkTvAvailability`; same shape as the movie
variant with the Sonarr checker. -/
def tvAvailLoop (plexCheck : String → PlexResult) (sonarrCheck : String → Option String)
    (primary : Option String) :
    List ServerRef → TvAvailabilityResult → TvAvailabilityResult
  | [], acc => acc
  | s :: rest, acc =>
    let acc1 :=
      if (plexCheck s.id).found then
        { acc with plexAvailable := true, plexServers := acc.plexServers ++ [s.name] }
      else acc
    let acc2 :=
      if primary == some s.id then
        match sonarrCheck s.id with
        | some st => if st == "" then acc1 else { acc1 with sonarrStatus := some st }
        | none => acc1
      else acc1
    tvAvailLoop plexCheck sonarrCheck primary rest acc2

/-- `checkTvAvailability(show, user)`. -/
def checkTvAvailability (plexCheck : String → PlexResult)
    (sonarrCheck : String → Option String) (user : SearchUser) (inRss : Bool) :
    TvAvailabilityResult :=
  let r := tvAvailLoop plexCheck sonarrCheck user.primaryServerId user.servers
    ⟨"unknown", false, [], none, false⟩
  let r := { r with inRssFeed := inRss }
  { r with status :=
      if r.plexAvailable then "available"
      else if jsTruthyStr r.sonarrStatus then r.sonarrStatus.getD ""
      else if r.inRssFeed then "requested"
      else "not_available" }

/-- The aggregation rule as the specification states it: a fixed priority
chain over the three per-item signals, first match wins. -/
def aggregatedStatusSpec (libraryPresent : Bool) (mgrStatus : Option String)
    (tracked : Bool) : String :=
  if libraryPresent then "available"
  else
    match mgrStatus with
    | some s => s
    | none => if tracked then "requested" else "not_available"

/-- The manager status the loop ends up storing: the primary server's checker
answer, provided the primary server is among the user's bound servers. -/
def primaryMgrStatus (mgrCheck : String → Option String) (user : SearchUser) :
    Option String :=
  match user.primaryServerId with
  | none => none
  | some p => if user.servers.any (fun s => s.id == p) then mgrCheck p else none

/-! ## Fulfillment executor (`requests.js`, `addToRadarr` / `addToSonarr`) -/

/-- The `plex_servers` row fields that the request routes read. -/
structure ServerRow where
  id : String
  radarr_url : Option String
  radarr_api_key : Option String
  sonarr_url : Option String
  sonarr_api_key : Option String
deriving DecidableEq, Repr

/-- A movie as returned by the Radarr lookup endpoint (and as stored in the
manager's library), restricted to the fields used in the add payload. -/
structure RadarrLookupMovie where
  title : String
  tmdbId : Nat
  year : Option Nat
deriving DecidableEq, Repr

/-- Environment of `addToRadarr`: the outcomes of the lookup, root-folder and
quality-profile requests (`.ok none` models a falsy lookup body). -/
structure RadarrMgr where
  lookup : Nat → Except Unit (Option RadarrLookupMovie)
  rootFolders : Except Unit (List String)
  qualityProfiles : Except Unit (List Nat)

/-- A series as returned by the Sonarr title lookup endpoint. -/
structure SonarrLookupSeries where
  title : String
  tvdbId : Nat
  year : Option Nat
deriving DecidableEq, Repr

/-- Environment of `addToSonarr`. -/
structure SonarrMgr where
  lookupByTitle : String → Except Unit (List SonarrLookupSeries)
  rootFolders : Except Unit (List String)
  qualityProfiles : Except Unit (List Nat)

/-- The tracked-movie state of the downstream Radarr instance. -/
structure RadarrLib where
  movies : List RadarrLookupMovie
  nextId : Nat
deriving DecidableEq, Repr

/-- The tracked-series state of the downstream Sonarr instance. -/
structure SonarrLib where
  series : List SonarrLookupSeries
  nextId : Nat
deriving DecidableEq, Repr

/-- Outcome of a manager add call. -/
inductive ArrAddOutcome
  | ok (id : Nat)
  | existsRejected
deriving DecidableEq, Repr

/-- Modelled from the spec: the movie download manager's add endpoint (an
external collaborator, spec section 6) rejects an add whose catalog id is
already tracked — the 400 `MovieExistsValidator` response the catch branch
inspects — and otherwise appends the movie and returns its new internal id. -/
def radarrAddMovie (lib : RadarrLib) (m : RadarrLookupMovie) : ArrAddOutcome × RadarrLib :=
  if lib.movies.any (fun x => x.tmdbId == m.tmdbId) then (.existsRejected, lib)
  else (.ok lib.nextId, ⟨lib.movies ++ [m], lib.nextId + 1⟩)

/-- Modelled from the spec: the series download manager's add endpoint
rejects an add whose internal (TVDB) id is already tracked — the 400
`SeriesExistsValidator` response — and otherwise appends the series. -/
def sonarrAddSeries (lib : SonarrLib) (s : SonarrLookupSeries) : ArrAddOutcome × SonarrLib :=
  if lib.series.any (fun x => x.tvdbId == s.tvdbId) then (.existsRejected, lib)
  else (.ok lib.nextId, ⟨lib.series ++ [s], lib.nextId + 1⟩)

/-- The result object returned by `addToRadarr` / `addToSonarr`. -/
structure ArrResult where
  success : Bool
  alreadyExists : Bool := false
  error : Option String := none
  arrId : Option Nat := none
deriving DecidableEq, Repr

/-- `addToRadarr(server, tmdbId, title)`: guard on configuration, look the
movie up, read root folders and quality profiles, then issue the add; an
already-exists rejection is converted to success with `alreadyExists`, any
transport error to a non-fatal failure result. -/
def addToRadarr (server : ServerRow) (mgr : RadarrMgr) (lib : RadarrLib)
    (tmdbId : Nat) : ArrResult × RadarrLib :=
  if !(jsTruthyStr server.radarr_url) || !(jsTruthyStr server.radarr_api_key) then
    ({ success := false, error := some "Radarr not configured" }, lib)
  else
    match mgr.lookup tmdbId with
    | .error _ => ({ success := false, error := some "request failed" }, lib)
    | .ok none => ({ success := false, error := some "Movie not found in TMDB" }, lib)
    | .ok (some movieData) =>
      match mgr.rootFolders with
      | .error _ => ({ success := false, error := some "request failed" }, lib)
      | .ok [] => ({ success := false, error := some "No root folder configured in Radarr" }, lib)
      | .ok (_ :: _) =>
        match mgr.qualityProfiles with
        | .error _ => ({ success := false, error := some "request failed" }, lib)
        | .ok [] =>
          ({ success := false, error := some "No quality profile configured in Radarr" }, lib)
        | .ok (_ :: _) =>
          match radarrAddMovie lib movieData with
          | (.ok newId, lib') => ({ success := true, arrId := some newId }, lib')
          | (.existsRejected, lib') => ({ success := true, alreadyExists := true }, lib')

/-- `addToSonarr(server, tmdbId, title, seasons)`: same shape with a
title-based lookup whose first hit is used. -/
def addToSonarr (server : ServerRow) (mgr : SonarrMgr) (lib : SonarrLib)
    (title : String) : ArrResult × SonarrLib :=
  if !(jsTruthyStr server.sonarr_url) || !(jsTruthyStr server.sonarr_api_key) then
    ({ success := false, error := some "Sonarr not configured" }, lib)
  else
    match mgr.lookupByTitle title with
    | .error _ => ({ success := false, error := some "request failed" }, lib)
    | .ok [] => ({ success := false, error := some "Series not found" }, lib)
    | .ok (seriesData :: _) =>
      match mgr.rootFolders with
      | .error _ => ({ success := false, error := some "request failed" }, lib)
      | .ok [] => ({ success := false, error := some "No root folder configured in Sonarr" }, lib)
      | .ok (_ :: _) =>
        match mgr.qualityProfiles with
        | .error _ => ({ success := false, error := some "request failed" }, lib)
        | .ok [] =>
          ({ success := false, error := some "No quality profile configured in Sonarr" }, lib)
        | .ok (_ :: _) =>
          match sonarrAddSeries lib seriesData with
          | (.ok newId, lib') => ({ success := true, arrId := some newId }, lib')
          | (.existsRejected, lib') => ({ success := true, alreadyExists := true }, lib')

/-! ## Request state machine (`requests.js` routes) -/

/-- A `content_requests` row (schema of `database/index.js`; `status`
defaults to `pending`). -/
structure ContentRequest where
  id : String
  userId : String
  serverId : String
  tmdbId : Nat
  contentType : String
  title : String
  year : Option Nat
  overview : Option String
  posterPath : Option String
  status : String
  seasons : Option String
  requestedAt : Nat
  processedAt : Option Nat
  processedBy : Option String
  notes : Option String
deriving DecidableEq, Repr

/-- An `rss_items` row (the tracked-item record). -/
structure RssItem where
  id : String
  serverId : String
  contentType : String
  tmdbId : Nat
  title : String
  year : Option Nat
  overview : Option String
  posterPath : Option String
  seasons : Option String
  addedBy : Option String
deriving DecidableEq, Repr

/-- An `audit_log` row, restricted to user, action and details. -/
structure AuditEntry where
  userId : String
  action : String
  details : String
deriving DecidableEq, Repr

/-- The persistent tables the request routes touch. -/
structure Db where
  requests : List ContentRequest
  rssItems : List RssItem
  auditLog : List AuditEntry
deriving DecidableEq, Repr

/-- The full mutable state a request-route call can change: the database plus
the two downstream manager libraries. -/
structure SystemState where
  db : Db
  radarrLib : RadarrLib
  sonarrLib : SonarrLib
deriving DecidableEq, Repr

/-- The fields of `req.user` the request routes read. -/
structure ReqUser where
  id : String
  role : String
  primaryServerId : Option String
  canAddDirectly : Bool
deriving DecidableEq, Repr

/-- The JSON body of `POST /api/requests` (`seasons` kept in its stringified
form, as it is stored). -/
structure CreateBody where
  tmdbId : Option Nat
  contentType : Option String
  title : Option String
  year : Option Nat
  overview : Option String
  posterPath : Option String
  seasons : Option String
deriving DecidableEq, Repr

/-- Environment of one `POST /api/requests` call: the server row for the
user's primary server, the pre-check list responses, and the manager
endpoints used by the direct-add path. -/
structure CreateEnv where
  server : Option ServerRow
  radarrMovies : Except Unit (List RadarrMovieRec)
  sonarrSeries : Except Unit (List SonarrSeriesRec)
  radarrMgr : RadarrMgr
  sonarrMgr : SonarrMgr

/-- Response of `POST /api/requests`. -/
inductive CreateResp
  | badRequest (error : String)
  | conflict (error : String) (status : Option String)
  | created (message : String) (status : String) (warning : Option String) (newId : String)
deriving DecidableEq, Repr

/-- The undocumented Radarr/Sonarr pre-check inside `POST /api/requests`,
wrapped in its own try/catch: a remote error yields no rejection (the create
proceeds), a listed movie with a file or monitored yields a 409 conflict. -/
def createPreCheck (env : CreateEnv) (server : ServerRow) (contentType : String)
    (tmdbId : Nat) (title : String) : Option CreateResp :=
  if contentType == "movie" && jsTruthyStr server.radarr_url
      && jsTruthyStr server.radarr_api_key then
    match env.radarrMovies with
    | .error _ => none
    | .ok ms =>
      match ms.find? (fun m => m.tmdbId == tmdbId) with
      | none => none
      | some m =>
        if m.hasFile then
          some (.conflict "This movie is already downloaded in Radarr" (some "downloaded"))
        else if m.monitored then
          some (.conflict "This movie is already being monitored in Radarr"
            (some (if m.status == "released" then "missing" else "unreleased")))
        else none
  else if contentType == "tv" && jsTruthyStr server.sonarr_url
      && jsTruthyStr server.sonarr_api_key then
    match env.sonarrSeries with
    | .error _ => none
    | .ok ss =>
      match ss.find? (fun s => jsTruthyNat s.tvdbId && s.title == title) with
      | none => none
      | some s =>
        if s.percentOfEpisodes == some 100 then
          some (.conflict "This series is already fully downloaded in Sonarr" (some "downloaded"))
        else none
  else none

/-- The duplicate-request guard of `POST /api/requests`: an existing record
for the same TMDB id, content type and server in state `pending` or
`approved`. -/
def findDuplicate (requests : List ContentRequest) (tmdbId : Nat)
    (contentType serverId : String) : Option ContentRequest :=
  requests.find? (fun r =>
    r.tmdbId == tmdbId && r.contentType == contentType && r.serverId == serverId
      && (r.status == "pending" || r.status == "approved"))

/-- `POST /api/requests`: validation, primary-server resolution, manager
pre-check, duplicate guard, then either the direct-add path (execute the
fulfillment call, record the tracked item, always report creation) or the
insertion of a `pending` request record.  `newId` stands for the generated
UUID, `now` for the insertion timestamp. -/
def createRequest (env : CreateEnv) (user : ReqUser) (body : CreateBody)
    (newId : String) (now : Nat) (st : SystemState) : CreateResp × SystemState :=
  if !(jsTruthyNat body.tmdbId) || !(jsTruthyStr body.contentType)
      || !(jsTruthyStr body.title) then
    (.badRequest "TMDB ID, content type, and title required", st)
  else
    let tmdbId := body.tmdbId.getD 0
    let contentType := body.contentType.getD ""
    let title := body.title.getD ""
    if !(contentType == "movie" || contentType == "tv") then
      (.badRequest "Invalid content type", st)
    else
      match user.primaryServerId with
      | none => (.badRequest "No server assigned to user", st)
      | some serverId =>
        match env.server with
        | none => (.badRequest "Server not found", st)
        | some server =>
          match createPreCheck env server contentType tmdbId title with
          | some resp => (resp, st)
          | none =>
            match findDuplicate st.db.requests tmdbId contentType serverId with
            | some _ => (.conflict "Request already exists" none, st)
            | none =>
              if user.canAddDirectly then
                let step :=
                  if contentType == "movie" then
                    let res := addToRadarr server env.radarrMgr st.radarrLib tmdbId
                    (res.1, res.2, st.sonarrLib)
                  else
                    let res := addToSonarr server env.sonarrMgr st.sonarrLib title
                    (res.1, st.radarrLib, res.2)
                let arrResult := step.1
                let rssItem : RssItem :=
                  ⟨newId, serverId, contentType, tmdbId, title, body.year, body.overview,
                    body.posterPath, body.seasons, some user.id⟩
                let db' := { st.db with
                  rssItems := st.db.rssItems ++ [rssItem],
                  auditLog := st.db.auditLog
                    ++ [⟨user.id, "add_content", "Added " ++ contentType ++ ": " ++ title⟩] }
                let st' : SystemState := ⟨db', step.2.1, step.2.2⟩
                if arrResult.success then
                  (.created "added and will start downloading" "added" none newId, st')
                else
                  (.created "added to queue but integration failed" "added"
                    arrResult.error newId, st')
              else
                let newReq : ContentRequest :=
                  ⟨newId, user.id, serverId, tmdbId, contentType, title, body.year,
                    body.overview, body.posterPath, "pending", body.seasons, now,
                    none, none, none⟩
                let db' := { st.db with
                  requests := st.db.requests ++ [newReq],
                  auditLog := st.db.auditLog
                    ++ [⟨user.id, "request_content", "Requested " ++ contentType ++ ": " ++ title⟩] }
                (.created "Request submitted for approval" "pending" none newId,
                  { st with db := db' })

/-- JavaScript `x || null` on a possibly-absent string. -/
def jsStrOrNull (o : Option String) : Option String :=
  if jsTruthyStr o then o else none

/-- Environment of one `POST /api/requests/:id/approve` call. -/
structure ApproveEnv where
  server : Option ServerRow
  radarrMgr : RadarrMgr
  sonarrMgr : SonarrMgr

/-- Response of `POST /api/requests/:id/approve`. -/
inductive ApproveResp
  | notFound
  | notPending
  | ok (message : String) (warning : Option String) (rssId : String)
deriving DecidableEq, Repr

/-- The fulfillment step of the approve route: run the executor against the
request's manager when the server row exists, else keep the failure default. -/
def approveArrStep (env : ApproveEnv) (st : SystemState) (request : ContentRequest) :
    ArrResult × RadarrLib × SonarrLib :=
  match env.server with
  | none => (({ success := false } : ArrResult), st.radarrLib, st.sonarrLib)
  | some server =>
    if request.contentType == "movie" then
      let res := addToRadarr server env.radarrMgr st.radarrLib request.tmdbId
      (res.1, res.2, st.sonarrLib)
    else if request.contentType == "tv" then
      let res := addToSonarr server env.sonarrMgr st.sonarrLib request.title
      (res.1, st.radarrLib, res.2)
    else (({ success := false } : ArrResult), st.radarrLib, st.sonarrLib)

/-- `POST /api/requests/:id/approve` (admin only): look the record up, refuse
non-pending records, run the fulfillment executor (its failure is absorbed),
write the tracked `rss_items` record, stamp the record `approved` with
processor and timestamp, and answer success — with a warning string when the
manager integration failed. -/
def approveRequest (env : ApproveEnv) (adminId : String) (reqId : String)
    (notes : Option String) (seasons : Option String) (rssId : String) (now : Nat)
    (st : SystemState) : ApproveResp × SystemState :=
  match st.db.requests.find? (fun r => r.id == reqId) with
  | none => (.notFound, st)
  | some request =>
    if !(request.status == "pending") then (.notPending, st)
    else
      let step := approveArrStep env st request
      let arrResult := step.1
      let seasonsOut := match seasons with
        | some s => some s
        | none => request.seasons
      let rssItem : RssItem :=
        ⟨rssId, request.serverId, request.contentType, request.tmdbId, request.title,
          request.year, request.overview, request.posterPath, seasonsOut, some adminId⟩
      let requests' := st.db.requests.map (fun r =>
        if r.id == request.id then
          { r with
            status := "approved"
            processedAt := some now
            processedBy := some adminId
            notes := jsStrOrNull notes }
        else r)
      let db' := { st.db with
        requests := requests',
        rssItems := st.db.rssItems ++ [rssItem],
        auditLog := st.db.auditLog
          ++ [⟨adminId, "approve_request",
               "Approved " ++ request.contentType ++ ": " ++ request.title⟩] }
      let st' : SystemState := ⟨db', step.2.1, step.2.2⟩
      if arrResult.success then
        (.ok "Request approved and added to the download manager" none rssId, st')
      else
        (.ok "Request approved"
          (some ("integration failed: " ++ (match arrResult.error with
            | some e => e
            | none => "undefined"))) rssId, st')

/-! ## Request listing (`GET /api/requests`) -/

/-- The JSON projection of one listed request (join columns resolved through
the provided `users` table; left joins yield `null` on a missing row). -/
structure ListedRequest where
  id : String
  userId : String
  requestedByUsername : Option String
  serverId : String
  tmdbId : Nat
  contentType : String
  title : String
  status : String
  notes : Option String
deriving DecidableEq, Repr

/-- Projection of a `content_requests` row to its response shape. -/
def projectRequest (users : List (String × String)) (r : ContentRequest) : ListedRequest :=
  ⟨r.id, r.userId, (users.find? (fun u => u.1 == r.userId)).map (fun u => u.2),
    r.serverId, r.tmdbId, r.contentType, r.title, r.status, r.notes⟩

/-- The WHERE clause built by `GET /api/requests`: non-admins are restricted
to their own rows, and truthy `status` / `type` query parameters add equality
conditions. -/
def listCond (user : ReqUser) (statusF typeF : Option String) (r : ContentRequest) : Bool :=
  (user.role == "admin" || r.userId == user.id)
    && (!(jsTruthyStr statusF) || statusF == some r.status)
    && (!(jsTruthyStr typeF) || typeF == some r.contentType)

/-- `GET /api/requests`: filter the request rows by the built WHERE clause
and project each row to its response shape.  `rows` stands for the
`content_requests` table read in the query's `ORDER BY requested_at DESC`
order (the stable sort commutes with the row filter). -/
def listRequests (user : ReqUser) (rows : List ContentRequest)
    (users : List (String × String)) (statusF typeF : Option String) :
    List ListedRequest :=
  (rows.filter (listCond user statusF typeF)).map (projectRequest users)

/-- The record-match rule as the specification words it: the year comparison
is skipped (not required) when the *remote* record lacks a year, and an
exact case-insensitive title match alone then suffices.  Stated for
comparison with `movieTitleYearMatch` / `showTitleYearMatch`. -/
def titleYearMatchSpec (title : String) (year : Option Nat) (m : PlexRecord) : Bool :=
  (strLower m.title == strLower title) &&
    (match m.year with
     | none => true
     | some ry =>
       match year with
       | none => true
       | some y => ry == y)

/-! ## Theorems -/

/-- Reading back the key just inserted: fresh within the window, absent from
the window's end on. -/
theorem freshGet_cacheSet_same (c : Cache) (k : String) (v : CacheVal) (T t : Nat) :
    freshGet (cacheSet c k v T) t k = if t - T < CACHE_TTL then some v else none := by
  simp [freshGet, cacheGet, cacheSet, List.find?]

/-- C5: a checker result inserted into the availability cache at time `T` is
returned by a read at any time strictly before `T + 5min` without re-invoking
the remote service, while a read at or after `T + 5min` treats the entry as
absent (lazy expiry) and issues a fresh remote call. -/
theorem claim5_cache_freshness (cache : Cache) (v : CacheVal) (T t : Nat)
    (env : PlexEnv) (serverId title : String) (year : Option Nat)
    (hs : env.serverExists = true) :
    (t < T + CACHE_TTL →
      checkPlexMovie env t (cacheSet cache (plexMovieKey serverId title year) v T)
          serverId title year
        = (asPlexResult v, cacheSet cache (plexMovieKey serverId title year) v T, false)) ∧
    (T + CACHE_TTL ≤ t →
      freshGet (cacheSet cache (plexMovieKey serverId title year) v T) t
          (plexMovieKey serverId title year) = none ∧
      (checkPlexMovie env t (cacheSet cache (plexMovieKey serverId title year) v T)
          serverId title year).2.2 = true) := by
  constructor
  · intro hfresh
    have h : freshGet (cacheSet cache (plexMovieKey serverId title year) v T) t
        (plexMovieKey serverId title year) = some v := by
      rw [freshGet_cacheSet_same]
      have hpos : 0 < CACHE_TTL := by decide
      have : t - T < CACHE_TTL := by omega
      simp [this]
    simp [checkPlexMovie, h]
  · intro hstale
    have h : freshGet (cacheSet cache (plexMovieKey serverId title year) v T) t
        (plexMovieKey serverId title year) = none := by
      rw [freshGet_cacheSet_same]
      have : ¬ (t - T < CACHE_TTL) := by omega
      simp [this]
    refine ⟨h, ?_⟩
    simp only [checkPlexMovie, h, hs]
    cases hsec : env.sections with
    | error e => simp
    | ok dirs =>
      simp only
      cases hscan : plexScan env.listSection (movieTitleYearMatch title year)
          ((dirs.filter (fun d => d.type == "movie")).map (fun d => d.key)) with
      | error e => simp
      | ok found => cases found <;> simp

/-- Witness for C5 at a concrete cache state and concrete read times. -/
theorem claim5_cache_freshness_witness :
    (checkPlexMovie ⟨true, Except.ok [], fun _ => Except.ok []⟩ 299999
        (cacheSet [] (plexMovieKey "s1" "Matrix" (some 1999)) (.plex ⟨true, none⟩) 0)
        "s1" "Matrix" (some 1999)
      = (asPlexResult (.plex ⟨true, none⟩),
          cacheSet [] (plexMovieKey "s1" "Matrix" (some 1999)) (.plex ⟨true, none⟩) 0,
          false)) ∧
    (freshGet (cacheSet [] (plexMovieKey "s1" "Matrix" (some 1999)) (.plex ⟨true, none⟩) 0)
        300000 (plexMovieKey "s1" "Matrix" (some 1999)) = none ∧
      (checkPlexMovie ⟨true, Except.ok [], fun _ => Except.ok []⟩ 300000
          (cacheSet [] (plexMovieKey "s1" "Matrix" (some 1999)) (.plex ⟨true, none⟩) 0)
          "s1" "Matrix" (some 1999)).2.2 = true) := by
  refine ⟨?_, ?_⟩
  · exact (claim5_cache_freshness [] (.plex ⟨true, none⟩) 0 299999
      ⟨true, Except.ok [], fun _ => Except.ok []⟩ "s1" "Matrix" (some 1999) rfl).1
      (by decide)
  · exact (claim5_cache_freshness [] (.plex ⟨true, none⟩) 0 300000
      ⟨true, Except.ok [], fun _ => Except.ok []⟩ "s1" "Matrix" (some 1999) rfl).2
      (by decide)

/-- C2 counterexample: with a supplied year, a remote record that matches the
title case-insensitively but lacks a year is NOT matched by the code, whereas
the claim's rule (skip the year comparison when the remote record lacks a
year) would match it. -/
theorem claim2_counterexample :
    movieTitleYearMatch "Matrix" (some 1999) ⟨"matrix", none⟩ = false ∧
    titleYearMatchSpec "Matrix" (some 1999) ⟨"matrix", none⟩ = true := by
  constructor <;> rfl

/-- C2 amended: an item matches a remote record iff the titles are equal
case-insensitively and, when a year is supplied, the remote record carries
exactly that year (a remote record lacking a year does not match); the year
comparison is skipped only when no year is supplied.  The final conjuncts
lift the rule to the section scan both checkers run: the `find?` over a
section's records succeeds exactly when some record satisfies it. -/
theorem claim2_title_year_match (title : String) (y : Nat) (m : PlexRecord) :
    (movieTitleYearMatch title (some y) m = true ↔
      strLower m.title = strLower title ∧ m.year = some y) ∧
    (showTitleYearMatch title (some y) m = true ↔
      strLower m.title = strLower title ∧ m.year = some y) ∧
    (movieTitleYearMatch title none m = true ↔ strLower m.title = strLower title) ∧
    (showTitleYearMatch title none m = true ↔ strLower m.title = strLower title) ∧
    (∀ recs : List PlexRecord,
      (recs.find? (movieTitleYearMatch title (some y))).isSome
        ↔ ∃ r ∈ recs, strLower r.title = strLower title ∧ r.year = some y) ∧
    (∀ recs : List PlexRecord,
      (recs.find? (showTitleYearMatch title (some y))).isSome
        ↔ ∃ r ∈ recs, strLower r.title = strLower title ∧ r.year = some y) := by
  refine ⟨?_, ?_, ?_, ?_, ?_, ?_⟩ <;>
    simp [movieTitleYearMatch, showTitleYearMatch, List.find?_isSome]

/-- C3 counterexample: a configured binding whose series manager lists a
matching, fully-downloaded series (here the TVDB id is even present) still
gets a null status from `checkSonarrSeries`, not `downloaded` — the checker
never inspects the fetched list. -/
theorem claim3_counterexample :
    (checkSonarrSeries ⟨true, Except.ok [⟨"Breaking Bad", some 81189, some 100⟩]⟩
        0 [] "s1" 1396).1 = none ∧
    ¬ (checkSonarrSeries ⟨true, Except.ok [⟨"Breaking Bad", some 81189, some 100⟩]⟩
        0 [] "s1" 1396).1 = some "downloaded" := by
  constructor
  · rfl
  · intro h
    simp [checkSonarrSeries, freshGet, cacheGet] at h

/-- C3 amended: on a cache miss the series-variant checker always returns a
null status, whatever the manager's series list contains — it performs no
title-based fallback and never classifies a found series. -/
theorem claim3_sonarr_always_null (env : SonarrEnv) (now : Nat) (cache : Cache)
    (serverId : String) (tmdbId : Nat)
    (hmiss : freshGet cache now (sonarrKey serverId tmdbId) = none) :
    (checkSonarrSeries env now cache serverId tmdbId).1 = none := by
  simp only [checkSonarrSeries, hmiss]
  cases henv : env.configured
  · simp
  · simp
    cases hser : env.series <;> simp

/-- Witness for the amended C3 at a concrete environment with a populated,
fully-downloaded series list and an empty cache. -/
theorem claim3_sonarr_always_null_witness :
    (checkSonarrSeries ⟨true, Except.ok [⟨"Dark", some 329089, some 100⟩]⟩
        5 [] "srv" 70523).1 = none :=
  claim3_sonarr_always_null ⟨true, Except.ok [⟨"Dark", some 329089, some 100⟩]⟩
    5 [] "srv" 70523 rfl

/-- C4 counterexample: when the sections request fails, `checkPlexMovie` does
return "not present", but the resulting cache is untouched (still empty), so
the error-case result is NOT written to the availability cache before
returning, contradicting the claim's "in every case". -/
theorem claim4_counterexample :
    (checkPlexMovie ⟨true, Except.error (), fun _ => Except.error ()⟩
        0 [] "s1" "Matrix" (some 1999)).1.found = false ∧
    cacheGet (checkPlexMovie ⟨true, Except.error (), fun _ => Except.error ()⟩
        0 [] "s1" "Matrix" (some 1999)).2.1
      (plexMovieKey "s1" "Matrix" (some 1999)) = none ∧
    cacheGet (checkRadarrMovie ⟨true, Except.error (), Except.error ()⟩
        0 [] "s1" 603).2.1 (radarrKey "s1" 603) = none := by
  refine ⟨rfl, rfl, rfl⟩

/-- C4 amended: on a remote error the library presence checkers return "not
present" and the movie-manager checker returns a null status, in every case
WITHOUT writing to the availability cache; the (possibly null / negative)
result is written to the cache only when the remote calls succeed.  Every
remote error site of the embedded checkers is covered: the sections request
and the per-section listing of `checkPlexMovie` and `checkPlexTv`, and the
movie-list and queue requests of `checkRadarrMovie`. -/
theorem claim4_soft_fail_cache :
    (∀ (env : PlexEnv) (now : Nat) (cache : Cache) (sid title : String) (year : Option Nat),
      freshGet cache now (plexMovieKey sid title year) = none →
      env.serverExists = true →
      env.sections = Except.error () →
      checkPlexMovie env now cache sid title year = (⟨false, none⟩, cache, true)) ∧
    (∀ (env : RadarrEnv) (now : Nat) (cache : Cache) (sid : String) (tid : Nat),
      freshGet cache now (radarrKey sid tid) = none →
      env.configured = true →
      env.movies = Except.error () →
      checkRadarrMovie env now cache sid tid = (none, cache, true)) ∧
    (∀ (env : PlexEnv) (now : Nat) (cache : Cache) (sid title : String) (year : Option Nat)
        (dirs : List PlexSection) (found : Option PlexRecord),
      freshGet cache now (plexMovieKey sid title year) = none →
      env.serverExists = true →
      env.sections = Except.ok dirs →
      plexScan env.listSection (movieTitleYearMatch title year)
          ((dirs.filter (fun d => d.type == "movie")).map (fun d => d.key)) =
        Except.ok found →
      (checkPlexMovie env now cache sid title year).2.1
        = cacheSet cache (plexMovieKey sid title year)
            (.plex ⟨found.isSome, found⟩) now) ∧
    (∀ (env : RadarrEnv) (now : Nat) (cache : Cache) (sid : String) (tid : Nat)
        (ms : List RadarrMovieRec) (qs : List Nat),
      freshGet cache now (radarrKey sid tid) = none →
      env.configured = true →
      env.movies = Except.ok ms →
      env.queue = Except.ok qs →
      (checkRadarrMovie env now cache sid tid).2.1
        = cacheSet cache (radarrKey sid tid)
            (.mgr (checkRadarrMovie env now cache sid tid).1) now) ∧
    (∀ (env : PlexEnv) (now : Nat) (cache : Cache) (sid title : String) (year : Option Nat)
        (dirs : List PlexSection),
      freshGet cache now (plexMovieKey sid title year) = none →
      env.serverExists = true →
      env.sections = Except.ok dirs →
      plexScan env.listSection (movieTitleYearMatch title year)
          ((dirs.filter (fun d => d.type == "movie")).map (fun d => d.key)) =
        Except.error () →
      checkPlexMovie env now cache sid title year = (⟨false, none⟩, cache, true)) ∧
    (∀ (env : RadarrEnv) (now : Nat) (cache : Cache) (sid : String) (tid : Nat)
        (ms : List RadarrMovieRec) (m : RadarrMovieRec),
      freshGet cache now (radarrKey sid tid) = none →
      env.configured = true →
      env.movies = Except.ok ms →
      ms.find? (fun x => x.tmdbId == tid) = some m →
      m.hasFile = false →
      m.monitored = true →
      env.queue = Except.error () →
      checkRadarrMovie env now cache sid tid = (none, cache, true)) ∧
    (∀ (env : PlexEnv) (now : Nat) (cache : Cache) (sid title : String) (year : Option Nat),
      freshGet cache now (plexTvKey sid title year) = none →
      env.serverExists = true →
      env.sections = Except.error () →
      checkPlexTv env now cache sid title year = (⟨false, none⟩, cache, true)) ∧
    (∀ (env : PlexEnv) (now : Nat) (cache : Cache) (sid title : String) (year : Option Nat)
        (dirs : List PlexSection),
      freshGet cache now (plexTvKey sid title year) = none →
      env.serverExists = true →
      env.sections = Except.ok dirs →
      plexScan env.listSection (showTitleYearMatch title year)
          ((dirs.filter (fun d => d.type == "show")).map (fun d => d.key)) =
        Except.error () →
      checkPlexTv env now cache sid title year = (⟨false, none⟩, cache, true)) ∧
    (∀ (env : PlexEnv) (now : Nat) (cache : Cache) (sid title : String) (year : Option Nat)
        (dirs : List PlexSection) (found : Option PlexRecord),
      freshGet cache now (plexTvKey sid title year) = none →
      env.serverExists = true →
      env.sections = Except.ok dirs →
      plexScan env.listSection (showTitleYearMatch title year)
          ((dirs.filter (fun d => d.type == "show")).map (fun d => d.key)) =
        Except.ok found →
      (checkPlexTv env now cache sid title year).2.1
        = cacheSet cache (plexTvKey sid title year)
            (.plex ⟨found.isSome, found⟩) now) := by
  refine ⟨?_, ?_, ?_, ?_, ?_, ?_, ?_, ?_, ?_⟩
  · intro env now cache sid title year hmiss hs hsec
    simp [checkPlexMovie, hmiss, hs, hsec]
  · intro env now cache sid tid hmiss hc hmov
    simp [checkRadarrMovie, hmiss, hc, hmov]
  · intro env now cache sid title year dirs found hmiss hs hsec hscan
    simp only [checkPlexMovie, hmiss, hs, hsec, if_true]
    rw [hscan]
    cases found <;> simp
  · intro env now cache sid tid ms qs hmiss hc hmov hq
    simp only [checkRadarrMovie, hmiss, hc, hmov, if_true]
    cases hfind : ms.find? (fun m => m.tmdbId == tid) with
    | none => simp
    | some m =>
      simp only
      cases hfile : m.hasFile
      · cases hmon : m.monitored
        · simp [hfile, hmon]
        · simp [hfile, hmon, hq]
      · simp [hfile]
  · intro env now cache sid title year dirs hmiss hs hsec hscan
    simp only [checkPlexMovie, hmiss, hs, hsec, if_true]
    rw [hscan]
  · intro env now cache sid tid ms m hmiss hc hmov hfind hfile hmon hq
    simp [checkRadarrMovie, hmiss, hc, hmov, hfind, hfile, hmon, hq]
  · intro env now cache sid title year hmiss hs hsec
    simp [checkPlexTv, hmiss, hs, hsec]
  · intro env now cache sid title year dirs hmiss hs hsec hscan
    simp only [checkPlexTv, hmiss, hs, hsec, if_true]
    rw [hscan]
  · intro env now cache sid title year dirs found hmiss hs hsec hscan
    simp only [checkPlexTv, hmiss, hs, hsec, if_true]
    rw [hscan]
    cases found <;> simp

/-- Witness for the amended C4 at concrete environments: remote errors at the
sections request, the per-section listing, the manager movie-list and the
manager queue all leave the cache untouched, while successful calls cache the
negative / null result — for the movie checkers and the TV variant alike. -/
theorem claim4_soft_fail_cache_witness :
    (checkPlexMovie ⟨true, Except.error (), fun _ => Except.error ()⟩
        7 [] "s1" "Matrix" (some 1999) = (⟨false, none⟩, [], true)) ∧
    (checkRadarrMovie ⟨true, Except.error (), Except.error ()⟩ 7 [] "s1" 603
      = (none, [], true)) ∧
    ((checkPlexMovie ⟨true, Except.ok [⟨"movie", 4⟩], fun _ => Except.ok []⟩
        7 [] "s1" "Matrix" (some 1999)).2.1
      = cacheSet [] (plexMovieKey "s1" "Matrix" (some 1999))
          (.plex ⟨false, none⟩) 7) ∧
    ((checkRadarrMovie ⟨true, Except.ok [], Except.ok []⟩ 7 [] "s1" 603).2.1
      = cacheSet [] (radarrKey "s1" 603)
          (.mgr (checkRadarrMovie ⟨true, Except.ok [], Except.ok []⟩ 7 [] "s1" 603).1) 7) ∧
    (checkPlexMovie ⟨true, Except.ok [⟨"movie", 4⟩], fun _ => Except.error ()⟩
        7 [] "s1" "Matrix" (some 1999) = (⟨false, none⟩, [], true)) ∧
    (checkRadarrMovie ⟨true, Except.ok [⟨10, 603, false, true, "released"⟩],
        Except.error ()⟩ 7 [] "s1" 603 = (none, [], true)) ∧
    (checkPlexTv ⟨true, Except.error (), fun _ => Except.error ()⟩
        7 [] "s1" "Dark" (some 2017) = (⟨false, none⟩, [], true)) ∧
    (checkPlexTv ⟨true, Except.ok [⟨"show", 4⟩], fun _ => Except.error ()⟩
        7 [] "s1" "Dark" (some 2017) = (⟨false, none⟩, [], true)) ∧
    ((checkPlexTv ⟨true, Except.ok [⟨"show", 4⟩], fun _ => Except.ok []⟩
        7 [] "s1" "Dark" (some 2017)).2.1
      = cacheSet [] (plexTvKey "s1" "Dark" (some 2017))
          (.plex ⟨false, none⟩) 7) := by
  refine ⟨?_, ?_, ?_, ?_, ?_, ?_, ?_, ?_, ?_⟩
  · exact claim4_soft_fail_cache.1 ⟨true, Except.error (), fun _ => Except.error ()⟩
      7 [] "s1" "Matrix" (some 1999) rfl rfl rfl
  · exact claim4_soft_fail_cache.2.1 ⟨true, Except.error (), Except.error ()⟩
      7 [] "s1" 603 rfl rfl rfl
  · exact claim4_soft_fail_cache.2.2.1 ⟨true, Except.ok [⟨"movie", 4⟩], fun _ => Except.ok []⟩
      7 [] "s1" "Matrix" (some 1999) [⟨"movie", 4⟩] none rfl rfl rfl rfl
  · exact claim4_soft_fail_cache.2.2.2.1 ⟨true, Except.ok [], Except.ok []⟩
      7 [] "s1" 603 [] [] rfl rfl rfl rfl
  · exact claim4_soft_fail_cache.2.2.2.2.1
      ⟨true, Except.ok [⟨"movie", 4⟩], fun _ => Except.error ()⟩
      7 [] "s1" "Matrix" (some 1999) [⟨"movie", 4⟩] rfl rfl rfl rfl
  · exact claim4_soft_fail_cache.2.2.2.2.2.1
      ⟨true, Except.ok [⟨10, 603, false, true, "released"⟩], Except.error ()⟩
      7 [] "s1" 603 [⟨10, 603, false, true, "released"⟩]
      ⟨10, 603, false, true, "released"⟩ rfl rfl rfl rfl rfl rfl rfl
  · exact claim4_soft_fail_cache.2.2.2.2.2.2.1
      ⟨true, Except.error (), fun _ => Except.error ()⟩
      7 [] "s1" "Dark" (some 2017) rfl rfl rfl
  · exact claim4_soft_fail_cache.2.2.2.2.2.2.2.1
      ⟨true, Except.ok [⟨"show", 4⟩], fun _ => Except.error ()⟩
      7 [] "s1" "Dark" (some 2017) [⟨"show", 4⟩] rfl rfl rfl rfl
  · exact claim4_soft_fail_cache.2.2.2.2.2.2.2.2
      ⟨true, Except.ok [⟨"show", 4⟩], fun _ => Except.ok []⟩
      7 [] "s1" "Dark" (some 2017) [⟨"show", 4⟩] none rfl rfl rfl rfl

/-- The aggregation loop marks Plex availability exactly when some bound
server's library contains the item. -/
theorem movieAvailLoop_plexAvailable (pc : String → PlexResult)
    (rc : String → Option String) (primary : Option String)
    (ss : List ServerRef) (acc : MovieAvailabilityResult) :
    (movieAvailLoop pc rc primary ss acc).plexAvailable
      = (acc.plexAvailable || ss.any (fun s => (pc s.id).found)) := by
  induction ss generalizing acc with
  | nil => simp [movieAvailLoop]
  | cons s rest ih =>
    simp only [movieAvailLoop]
    rw [ih]
    cases hfound : (pc s.id).found <;>
      cases hp : primary == some s.id <;>
        cases hrc : rc s.id <;> simp_all <;> split <;> simp

/-- With a null primary binding the loop never records a manager status. -/
theorem movieAvailLoop_radarrStatus_none (pc : String → PlexResult)
    (rc : String → Option String) (ss : List ServerRef)
    (acc : MovieAvailabilityResult) :
    (movieAvailLoop pc rc none ss acc).radarrStatus = acc.radarrStatus := by
  induction ss generalizing acc with
  | nil => simp [movieAvailLoop]
  | cons s rest ih =>
    simp only [movieAvailLoop]
    rw [ih]
    cases hfound : (pc s.id).found <;> simp

/-- With primary binding `p`, the loop records the primary server's manager
answer exactly when `p` is among the bound servers and the answer is
non-null (manager answers are never the empty string). -/
theorem movieAvailLoop_radarrStatus_some (pc : String → PlexResult)
    (rc : String → Option String) (p : String) (ss : List ServerRef)
    (acc : MovieAvailabilityResult)
    (hne : ∀ i st, rc i = some st → st ≠ "") :
    (movieAvailLoop pc rc (some p) ss acc).radarrStatus
      = if ss.any (fun s => s.id == p) && (rc p).isSome
        then rc p else acc.radarrStatus := by
  induction ss generalizing acc with
  | nil => simp [movieAvailLoop]
  | cons s rest ih =>
    simp only [movieAvailLoop]
    rw [ih]
    by_cases hp : s.id = p
    · subst hp
      cases hrc : rc s.id with
      | none =>
        simp [hrc]
        cases hfound : (pc s.id).found <;> simp
      | some st =>
        have hst : ¬ st = "" := hne s.id st hrc
        cases hfound : (pc s.id).found <;> simp [hrc, hst]
    · have hps : (some p == some s.id) = false := by
        rw [beq_eq_false_iff_ne]
        intro h
        exact hp (Option.some.inj h).symm
      have hsp : (s.id == p) = false := by
        rw [beq_eq_false_iff_ne]
        exact hp
      cases hfound : (pc s.id).found <;> simp [hps, hsp]

/-- TV variant of `movieAvailLoop_plexAvailable`. -/
theorem tvAvailLoop_plexAvailable (pc : String → PlexResult)
    (sc : String → Option String) (primary : Option String)
    (ss : List ServerRef) (acc : TvAvailabilityResult) :
    (tvAvailLoop pc sc primary ss acc).plexAvailable
      = (acc.plexAvailable || ss.any (fun s => (pc s.id).found)) := by
  induction ss generalizing acc with
  | nil => simp [tvAvailLoop]
  | cons s rest ih =>
    simp only [tvAvailLoop]
    rw [ih]
    cases hfound : (pc s.id).found <;>
      cases hp : primary == some s.id <;>
        cases hrc : sc s.id <;> simp_all <;> split <;> simp

/-- TV variant of `movieAvailLoop_radarrStatus_none`. -/
theorem tvAvailLoop_sonarrStatus_none (pc : String → PlexResult)
    (sc : String → Option String) (ss : List ServerRef)
    (acc : TvAvailabilityResult) :
    (tvAvailLoop pc sc none ss acc).sonarrStatus = acc.sonarrStatus := by
  induction ss generalizing acc with
  | nil => simp [tvAvailLoop]
  | cons s rest ih =>
    simp only [tvAvailLoop]
    rw [ih]
    cases hfound : (pc s.id).found <;> simp

/-- TV variant of `movieAvailLoop_radarrStatus_some`. -/
theorem tvAvailLoop_sonarrStatus_some (pc : String → PlexResult)
    (sc : String → Option String) (p : String) (ss : List ServerRef)
    (acc : TvAvailabilityResult)
    (hne : ∀ i st, sc i = some st → st ≠ "") :
    (tvAvailLoop pc sc (some p) ss acc).sonarrStatus
      = if ss.any (fun s => s.id == p) && (sc p).isSome
        then sc p else acc.sonarrStatus := by
  induction ss generalizing acc with
  | nil => simp [tvAvailLoop]
  | cons s rest ih =>
    simp only [tvAvailLoop]
    rw [ih]
    by_cases hp : s.id = p
    · subst hp
      cases hrc : sc s.id with
      | none =>
        simp [hrc]
        cases hfound : (pc s.id).found <;> simp
      | some st =>
        have hst : ¬ st = "" := hne s.id st hrc
        cases hfound : (pc s.id).found <;> simp [hrc, hst]
    · have hps : (some p == some s.id) = false := by
        rw [beq_eq_false_iff_ne]
        intro h
        exact hp (Option.some.inj h).symm
      have hsp : (s.id == p) = false := by
        rw [beq_eq_false_iff_ne]
        exact hp
      cases hfound : (pc s.id).found <;> simp [hps, hsp]

/-- The manager status the movie aggregation ends up carrying is the primary
binding's checker answer. -/
theorem checkMovieAvailability_radarrStatus (pc : String → PlexResult)
    (rc : String → Option String) (user : SearchUser) (inRss : Bool)
    (hne : ∀ i st, rc i = some st → st ≠ "") :
    (checkMovieAvailability pc rc user inRss).radarrStatus
      = primaryMgrStatus rc user := by
  simp only [checkMovieAvailability, primaryMgrStatus]
  cases hp : user.primaryServerId with
  | none => rw [movieAvailLoop_radarrStatus_none]
  | some p =>
    rw [movieAvailLoop_radarrStatus_some pc rc p user.servers _ hne]
    cases hany : user.servers.any (fun s => s.id == p) with
    | false =>
      have hno : ¬ ∃ x ∈ user.servers, x.id = p := by simpa using hany
      simp [hno]
    | true =>
      have hyes : ∃ x ∈ user.servers, x.id = p := by simpa using hany
      cases hrc : rc p with
      | none => simp [hrc, hyes]
      | some st => simp [hrc, hyes]

/-- TV variant of `checkMovieAvailability_radarrStatus`. -/
theorem checkTvAvailability_sonarrStatus (pc : String → PlexResult)
    (sc : String → Option String) (user : SearchUser) (inRss : Bool)
    (hne : ∀ i st, sc i = some st → st ≠ "") :
    (checkTvAvailability pc sc user inRss).sonarrStatus
      = primaryMgrStatus sc user := by
  simp only [checkTvAvailability, primaryMgrStatus]
  cases hp : user.primaryServerId with
  | none => rw [tvAvailLoop_sonarrStatus_none]
  | some p =>
    rw [tvAvailLoop_sonarrStatus_some pc sc p user.servers _ hne]
    cases hany : user.servers.any (fun s => s.id == p) with
    | false =>
      have hno : ¬ ∃ x ∈ user.servers, x.id = p := by simpa using hany
      simp [hno]
    | true =>
      have hyes : ∃ x ∈ user.servers, x.id = p := by simpa using hany
      cases hrc : sc p with
      | none => simp [hrc, hyes]
      | some st => simp [hrc, hyes]

/-- A non-null aggregated manager status comes from some checker answer. -/
theorem primaryMgrStatus_some (mc : String → Option String) (user : SearchUser)
    (st : String) (h : primaryMgrStatus mc user = some st) : ∃ i, mc i = some st := by
  unfold primaryMgrStatus at h
  split at h
  · exact absurd h (by simp)
  · next p hp =>
    split at h
    · exact ⟨p, h⟩
    · exact absurd h (by simp)

/-- C1: the aggregated availability status is computed by the fixed priority
chain, first match wins — `available` when the item is in any bound server's
library, else the non-null manager status of the primary binding, else
`requested` when a tracked record exists, else `not_available` — for both the
movie and the series aggregation. -/
theorem claim1_status_priority_chain (pc : String → PlexResult)
    (rc sc : String → Option String) (user : SearchUser) (inRss : Bool)
    (hrc : ∀ i st, rc i = some st → st ≠ "")
    (hsc : ∀ i st, sc i = some st → st ≠ "") :
    (checkMovieAvailability pc rc user inRss).status
      = aggregatedStatusSpec (user.servers.any (fun s => (pc s.id).found))
          (primaryMgrStatus rc user) inRss ∧
    (checkTvAvailability pc sc user inRss).status
      = aggregatedStatusSpec (user.servers.any (fun s => (pc s.id).found))
          (primaryMgrStatus sc user) inRss := by
  constructor
  · have hpa : (checkMovieAvailability pc rc user inRss).plexAvailable
        = user.servers.any (fun s => (pc s.id).found) := by
      simp only [checkMovieAvailability]
      rw [movieAvailLoop_plexAvailable]
      simp
    have hrs := checkMovieAvailability_radarrStatus pc rc user inRss hrc
    have hstat : (checkMovieAvailability pc rc user inRss).status
        = (if (checkMovieAvailability pc rc user inRss).plexAvailable then "available"
           else if jsTruthyStr (checkMovieAvailability pc rc user inRss).radarrStatus
             then ((checkMovieAvailability pc rc user inRss).radarrStatus).getD ""
           else if (checkMovieAvailability pc rc user inRss).inRssFeed then "requested"
           else "not_available") := rfl
    have hrss : (checkMovieAvailability pc rc user inRss).inRssFeed = inRss := rfl
    rw [hstat, hpa, hrs, hrss]
    cases hany : user.servers.any (fun s => (pc s.id).found) with
    | true => simp [aggregatedStatusSpec]
    | false =>
      cases hm : primaryMgrStatus rc user with
      | none => simp [aggregatedStatusSpec, jsTruthyStr]
      | some st =>
        obtain ⟨i, hi⟩ := primaryMgrStatus_some rc user st hm
        have hst : st ≠ "" := hrc i st hi
        simp [aggregatedStatusSpec, jsTruthyStr, hst]
  · have hpa : (checkTvAvailability pc sc user inRss).plexAvailable
        = user.servers.any (fun s => (pc s.id).found) := by
      simp only [checkTvAvailability]
      rw [tvAvailLoop_plexAvailable]
      simp
    have hrs := checkTvAvailability_sonarrStatus pc sc user inRss hsc
    have hstat : (checkTvAvailability pc sc user inRss).status
        = (if (checkTvAvailability pc sc user inRss).plexAvailable then "available"
           else if jsTruthyStr (checkTvAvailability pc sc user inRss).sonarrStatus
             then ((checkTvAvailability pc sc user inRss).sonarrStatus).getD ""
           else if (checkTvAvailability pc sc user inRss).inRssFeed then "requested"
           else "not_available") := rfl
    have hrss : (checkTvAvailability pc sc user inRss).inRssFeed = inRss := rfl
    rw [hstat, hpa, hrs, hrss]
    cases hany : user.servers.any (fun s => (pc s.id).found) with
    | true => simp [aggregatedStatusSpec]
    | false =>
      cases hm : primaryMgrStatus sc user with
      | none => simp [aggregatedStatusSpec, jsTruthyStr]
      | some st =>
        obtain ⟨i, hi⟩ := primaryMgrStatus_some sc user st hm
        have hst : st ≠ "" := hsc i st hi
        simp [aggregatedStatusSpec, jsTruthyStr, hst]

/-- Witness for C1: one bound server which is also the primary binding; the
item is absent from its library and the movie manager reports `queued`, the
series manager `missing`. -/
theorem claim1_status_priority_chain_witness :
    (checkMovieAvailability (fun _ => ⟨false, none⟩) (fun _ => some "queued")
        ⟨[⟨"s1", "Main"⟩], some "s1"⟩ false).status
      = aggregatedStatusSpec
          (([⟨"s1", "Main"⟩] : List ServerRef).any
            (fun s => ((fun _ => (⟨false, none⟩ : PlexResult)) s.id).found))
          (primaryMgrStatus (fun _ => some "queued") ⟨[⟨"s1", "Main"⟩], some "s1"⟩) false ∧
    (checkTvAvailability (fun _ => ⟨false, none⟩) (fun _ => some "missing")
        ⟨[⟨"s1", "Main"⟩], some "s1"⟩ false).status
      = aggregatedStatusSpec
          (([⟨"s1", "Main"⟩] : List ServerRef).any
            (fun s => ((fun _ => (⟨false, none⟩ : PlexResult)) s.id).found))
          (primaryMgrStatus (fun _ => some "missing") ⟨[⟨"s1", "Main"⟩], some "s1"⟩) false :=
  claim1_status_priority_chain (fun _ => ⟨false, none⟩) (fun _ => some "queued")
    (fun _ => some "missing") ⟨[⟨"s1", "Main"⟩], some "s1"⟩ false
    (fun i st h => by
      have hq : "queued" = st := by simpa using h
      subst hq
      decide)
    (fun i st h => by
      have hq : "missing" = st := by simpa using h
      subst hq
      decide)

/-- C8: the fulfillment executor is idempotent.  When the item is not yet
tracked, the add succeeds and appends exactly one downstream entry; running
the same command again makes the manager reject the add as already existing,
which the executor converts to `success: true, alreadyExists: true`, and the
downstream library is unchanged — no duplicate entry.  Both the movie and the
series variant are covered. -/
theorem claim8_executor_idempotent
    (server : ServerRow) (rmgr : RadarrMgr) (rlib : RadarrLib) (tmdbId : Nat)
    (m : RadarrLookupMovie) (root : String) (roots : List String)
    (prof : Nat) (profs : List Nat)
    (hru : jsTruthyStr server.radarr_url = true)
    (hrk : jsTruthyStr server.radarr_api_key = true)
    (hlk : rmgr.lookup tmdbId = Except.ok (some m))
    (hmid : m.tmdbId = tmdbId)
    (hroot : rmgr.rootFolders = Except.ok (root :: roots))
    (hprof : rmgr.qualityProfiles = Except.ok (prof :: profs))
    (hnew : rlib.movies.any (fun x => x.tmdbId == tmdbId) = false)
    (smgr : SonarrMgr) (slib : SonarrLib) (title : String)
    (sr : SonarrLookupSeries) (srs : List SonarrLookupSeries)
    (hsu : jsTruthyStr server.sonarr_url = true)
    (hsk : jsTruthyStr server.sonarr_api_key = true)
    (hslk : smgr.lookupByTitle title = Except.ok (sr :: srs))
    (hsroot : smgr.rootFolders = Except.ok (root :: roots))
    (hsprof : smgr.qualityProfiles = Except.ok (prof :: profs))
    (hsnew : slib.series.any (fun x => x.tvdbId == sr.tvdbId) = false) :
    addToRadarr server rmgr rlib tmdbId
      = (⟨true, false, none, some rlib.nextId⟩, ⟨rlib.movies ++ [m], rlib.nextId + 1⟩) ∧
    addToRadarr server rmgr ⟨rlib.movies ++ [m], rlib.nextId + 1⟩ tmdbId
      = (⟨true, true, none, none⟩, ⟨rlib.movies ++ [m], rlib.nextId + 1⟩) ∧
    addToSonarr server smgr slib title
      = (⟨true, false, none, some slib.nextId⟩, ⟨slib.series ++ [sr], slib.nextId + 1⟩) ∧
    addToSonarr server smgr ⟨slib.series ++ [sr], slib.nextId + 1⟩ title
      = (⟨true, true, none, none⟩, ⟨slib.series ++ [sr], slib.nextId + 1⟩) := by
  refine ⟨?_, ?_, ?_, ?_⟩
  · simp only [addToRadarr, hru, hrk, hlk, hroot, hprof]
    simp [radarrAddMovie, hmid, hnew]
  · simp only [addToRadarr, hru, hrk, hlk, hroot, hprof]
    simp [radarrAddMovie, hmid]
  · simp only [addToSonarr, hsu, hsk, hslk, hsroot, hsprof]
    simp [sonarrAddSeries, hsnew]
  · simp only [addToSonarr, hsu, hsk, hslk, hsroot, hsprof]
    simp [sonarrAddSeries]

/-- Witness for C8 at a concrete configured server, manager and an initially
empty downstream library for both variants. -/
theorem claim8_executor_idempotent_witness :
    addToRadarr ⟨"s1", some "http://radarr", some "key", some "http://sonarr", some "key"⟩
        ⟨fun _ => Except.ok (some ⟨"The Matrix", 603, some 1999⟩),
          Except.ok ["/media"], Except.ok [1]⟩ ⟨[], 1⟩ 603
      = (⟨true, false, none, some 1⟩, ⟨[⟨"The Matrix", 603, some 1999⟩], 2⟩) ∧
    addToRadarr ⟨"s1", some "http://radarr", some "key", some "http://sonarr", some "key"⟩
        ⟨fun _ => Except.ok (some ⟨"The Matrix", 603, some 1999⟩),
          Except.ok ["/media"], Except.ok [1]⟩ ⟨[⟨"The Matrix", 603, some 1999⟩], 2⟩ 603
      = (⟨true, true, none, none⟩, ⟨[⟨"The Matrix", 603, some 1999⟩], 2⟩) ∧
    addToSonarr ⟨"s1", some "http://radarr", some "key", some "http://sonarr", some "key"⟩
        ⟨fun _ => Except.ok [⟨"Dark", 329089, some 2017⟩],
          Except.ok ["/media"], Except.ok [1]⟩ ⟨[], 1⟩ "Dark"
      = (⟨true, false, none, some 1⟩, ⟨[⟨"Dark", 329089, some 2017⟩], 2⟩) ∧
    addToSonarr ⟨"s1", some "http://radarr", some "key", some "http://sonarr", some "key"⟩
        ⟨fun _ => Except.ok [⟨"Dark", 329089, some 2017⟩],
          Except.ok ["/media"], Except.ok [1]⟩ ⟨[⟨"Dark", 329089, some 2017⟩], 2⟩ "Dark"
      = (⟨true, true, none, none⟩, ⟨[⟨"Dark", 329089, some 2017⟩], 2⟩) :=
  claim8_executor_idempotent
    ⟨"s1", some "http://radarr", some "key", some "http://sonarr", some "key"⟩
    ⟨fun _ => Except.ok (some ⟨"The Matrix", 603, some 1999⟩),
      Except.ok ["/media"], Except.ok [1]⟩ ⟨[], 1⟩ 603
    ⟨"The Matrix", 603, some 1999⟩ "/media" [] 1 []
    rfl rfl rfl rfl rfl rfl rfl
    ⟨fun _ => Except.ok [⟨"Dark", 329089, some 2017⟩], Except.ok ["/media"], Except.ok [1]⟩
    ⟨[], 1⟩ "Dark" ⟨"Dark", 329089, some 2017⟩ []
    rfl rfl rfl rfl rfl rfl

/-- C7: approving a `pending` request whose fulfillment call fails still
stamps the record `approved` with processor and timestamp, still writes the
tracked `rss_items` record, and answers with a success response carrying a
warning string — never an error response. -/
theorem claim7_approve_absorbs_failure
    (env : ApproveEnv) (adminId reqId : String) (notes seasons : Option String)
    (rssId : String) (now : Nat) (st : SystemState) (request : ContentRequest)
    (hfind : st.db.requests.find? (fun r => r.id == reqId) = some request)
    (hpending : request.status = "pending")
    (hfail : (approveArrStep env st request).1.success = false) :
    approveRequest env adminId reqId notes seasons rssId now st
      = (.ok "Request approved"
          (some ("integration failed: " ++
            (match (approveArrStep env st request).1.error with
             | some e => e
             | none => "undefined"))) rssId,
         ⟨⟨st.db.requests.map (fun r =>
              if r.id == request.id then
                { r with
                  status := "approved"
                  processedAt := some now
                  processedBy := some adminId
                  notes := jsStrOrNull notes }
              else r),
           st.db.rssItems ++ [⟨rssId, request.serverId, request.contentType,
             request.tmdbId, request.title, request.year, request.overview,
             request.posterPath,
             (match seasons with
              | some s => some s
              | none => request.seasons), some adminId⟩],
           st.db.auditLog ++ [⟨adminId, "approve_request",
             "Approved " ++ request.contentType ++ ": " ++ request.title⟩]⟩,
          (approveArrStep env st request).2.1,
          (approveArrStep env st request).2.2⟩) := by
  have hp : (request.status == "pending") = true := by simp [hpending]
  simp only [approveRequest, hfind, hp, Bool.not_true, Bool.false_eq_true,
    if_false, hfail]

/-- Witness for C7: a single pending movie request whose Radarr lookup fails
with a transport error; the approval still succeeds with a warning and the
record is stamped approved. -/
theorem claim7_approve_absorbs_failure_witness :
    approveRequest
        ⟨some ⟨"s1", some "http://r", some "k", none, none⟩,
          ⟨fun _ => Except.error (), Except.error (), Except.error ()⟩,
          ⟨fun _ => Except.error (), Except.error (), Except.error ()⟩⟩
        "admin" "r1" none none "rss1" 5
        ⟨⟨[⟨"r1", "u1", "s1", 603, "movie", "The Matrix", some 1999, none, none,
            "pending", none, 0, none, none, none⟩], [], []⟩, ⟨[], 1⟩, ⟨[], 1⟩⟩
      = (.ok "Request approved" (some "integration failed: request failed") "rss1",
         ⟨⟨[⟨"r1", "u1", "s1", 603, "movie", "The Matrix", some 1999, none, none,
              "approved", none, 0, some 5, some "admin", none⟩],
           [⟨"rss1", "s1", "movie", 603, "The Matrix", some 1999, none, none, none,
              some "admin"⟩],
           [⟨"admin", "approve_request", "Approved movie: The Matrix"⟩]⟩,
          ⟨[], 1⟩, ⟨[], 1⟩⟩) :=
  (claim7_approve_absorbs_failure
    ⟨some ⟨"s1", some "http://r", some "k", none, none⟩,
      ⟨fun _ => Except.error (), Except.error (), Except.error ()⟩,
      ⟨fun _ => Except.error (), Except.error (), Except.error ()⟩⟩
    "admin" "r1" none none "rss1" 5
    ⟨⟨[⟨"r1", "u1", "s1", 603, "movie", "The Matrix", some 1999, none, none,
        "pending", none, 0, none, none, none⟩], [], []⟩, ⟨[], 1⟩, ⟨[], 1⟩⟩
    ⟨"r1", "u1", "s1", 603, "movie", "The Matrix", some 1999, none, none,
      "pending", none, 0, none, none, none⟩
    rfl rfl rfl).trans (by decide)

/-- C6: creating a request for an (item, kind, server) triple that already
has a `pending` or `approved` record is rejected as a duplicate with no state
change, while a create for the same item and kind whose user targets a
different primary server passes the guard and writes a new `pending`
record. -/
theorem claim6_duplicate_guard :
    (∀ (env : CreateEnv) (user : ReqUser) (body : CreateBody) (newId : String)
        (now : Nat) (st : SystemState) (tmdbId : Nat) (ct title S : String)
        (server : ServerRow),
      body.tmdbId = some tmdbId → tmdbId ≠ 0 →
      body.contentType = some ct → (ct = "movie" ∨ ct = "tv") →
      body.title = some title → title ≠ "" →
      user.primaryServerId = some S →
      env.server = some server →
      createPreCheck env server ct tmdbId title = none →
      (∃ r ∈ st.db.requests, r.tmdbId = tmdbId ∧ r.contentType = ct ∧
        r.serverId = S ∧ (r.status = "pending" ∨ r.status = "approved")) →
      createRequest env user body newId now st
        = (.conflict "Request already exists" none, st)) ∧
    (∀ (env : CreateEnv) (user : ReqUser) (body : CreateBody) (newId : String)
        (now : Nat) (st : SystemState) (tmdbId : Nat) (ct title S S2 : String)
        (server : ServerRow),
      body.tmdbId = some tmdbId → tmdbId ≠ 0 →
      body.contentType = some ct → (ct = "movie" ∨ ct = "tv") →
      body.title = some title → title ≠ "" →
      user.primaryServerId = some S2 →
      env.server = some server →
      createPreCheck env server ct tmdbId title = none →
      S2 ≠ S →
      (∀ r ∈ st.db.requests, r.tmdbId = tmdbId → r.contentType = ct → r.serverId = S) →
      user.canAddDirectly = false →
      createRequest env user body newId now st
        = (.created "Request submitted for approval" "pending" none newId,
           { st with db := { st.db with
              requests := st.db.requests
                ++ [⟨newId, user.id, S2, tmdbId, ct, title, body.year, body.overview,
                     body.posterPath, "pending", body.seasons, now, none, none, none⟩],
              auditLog := st.db.auditLog
                ++ [⟨user.id, "request_content", "Requested " ++ ct ++ ": " ++ title⟩] } })) := by
  constructor
  · intro env user body newId now st tmdbId ct title S server
      htm htm0 hct hctk hti hti0 hprim hsrv hpre hex
    have h1 : jsTruthyNat body.tmdbId = true := by
      rw [htm]
      simp [jsTruthyNat, htm0]
    have hct0 : ct ≠ "" := by rcases hctk with rfl | rfl <;> decide
    have h2 : jsTruthyStr body.contentType = true := by
      rw [hct]
      simp [jsTruthyStr, hct0]
    have h3 : jsTruthyStr body.title = true := by
      rw [hti]
      simp [jsTruthyStr, hti0]
    have hctv : (ct == "movie" || ct == "tv") = true := by
      rcases hctk with rfl | rfl <;> decide
    have hfound : (findDuplicate st.db.requests tmdbId ct S).isSome := by
      obtain ⟨r, hr, e1, e2, e3, e4⟩ := hex
      refine List.find?_isSome.mpr ⟨r, hr, ?_⟩
      simp only [Bool.and_eq_true, beq_iff_eq, Bool.or_eq_true]
      exact ⟨⟨⟨e1, e2⟩, e3⟩, by simpa using e4⟩
    obtain ⟨rdup, hrdup⟩ := Option.isSome_iff_exists.mp hfound
    simp only [createRequest, h1, h2, h3, Bool.not_true, Bool.or_self, Bool.or_false,
      Bool.false_or, if_false, htm, hct, hti, Option.getD_some, hctv, hprim, hsrv,
      hpre, hrdup]
    simp [jsTruthyNat, jsTruthyStr, htm0, hct0, hti0]
  · intro env user body newId now st tmdbId ct title S S2 server
      htm htm0 hct hctk hti hti0 hprim hsrv hpre hS2 hall hdirect
    have h1 : jsTruthyNat body.tmdbId = true := by
      rw [htm]
      simp [jsTruthyNat, htm0]
    have hct0 : ct ≠ "" := by rcases hctk with rfl | rfl <;> decide
    have h2 : jsTruthyStr body.contentType = true := by
      rw [hct]
      simp [jsTruthyStr, hct0]
    have h3 : jsTruthyStr body.title = true := by
      rw [hti]
      simp [jsTruthyStr, hti0]
    have hctv : (ct == "movie" || ct == "tv") = true := by
      rcases hctk with rfl | rfl <;> decide
    have hnone : findDuplicate st.db.requests tmdbId ct S2 = none := by
      apply List.find?_eq_none.mpr
      intro r hr hp
      simp only [Bool.and_eq_true, beq_iff_eq, Bool.or_eq_true] at hp
      obtain ⟨⟨⟨e1, e2⟩, e3⟩, _⟩ := hp
      exact hS2 (e3 ▸ (hall r hr e1 e2 : r.serverId = S))
    simp only [createRequest, h1, h2, h3, Bool.not_true, Bool.or_self, Bool.or_false,
      Bool.false_or, if_false, htm, hct, hti, Option.getD_some, hctv, hprim, hsrv,
      hpre, hnone, hdirect]
    simp [jsTruthyNat, jsTruthyStr, htm0, hct0, hti0]

/-- Witness for C6: one pending record for (603, movie, s1); a duplicate
create by a user bound to s1 is rejected with no state change, while a create
by a user bound to s2 succeeds and appends a pending record. -/
theorem claim6_duplicate_guard_witness :
    (createRequest
        ⟨some ⟨"s1", none, none, none, none⟩, Except.error (), Except.error (),
          ⟨fun _ => Except.error (), Except.error (), Except.error ()⟩,
          ⟨fun _ => Except.error (), Except.error (), Except.error ()⟩⟩
        ⟨"u2", "user", some "s1", false⟩
        ⟨some 603, some "movie", some "The Matrix", some 1999, none, none, none⟩
        "n1" 9
        ⟨⟨[⟨"r1", "u1", "s1", 603, "movie", "The Matrix", some 1999, none, none,
            "pending", none, 0, none, none, none⟩], [], []⟩, ⟨[], 1⟩, ⟨[], 1⟩⟩
      = (.conflict "Request already exists" none,
         ⟨⟨[⟨"r1", "u1", "s1", 603, "movie", "The Matrix", some 1999, none, none,
             "pending", none, 0, none, none, none⟩], [], []⟩, ⟨[], 1⟩, ⟨[], 1⟩⟩)) ∧
    (createRequest
        ⟨some ⟨"s2", none, none, none, none⟩, Except.error (), Except.error (),
          ⟨fun _ => Except.error (), Except.error (), Except.error ()⟩,
          ⟨fun _ => Except.error (), Except.error (), Except.error ()⟩⟩
        ⟨"u2", "user", some "s2", false⟩
        ⟨some 603, some "movie", some "The Matrix", some 1999, none, none, none⟩
        "n1" 9
        ⟨⟨[⟨"r1", "u1", "s1", 603, "movie", "The Matrix", some 1999, none, none,
            "pending", none, 0, none, none, none⟩], [], []⟩, ⟨[], 1⟩, ⟨[], 1⟩⟩
      = (.created "Request submitted for approval" "pending" none "n1",
         ⟨⟨[⟨"r1", "u1", "s1", 603, "movie", "The Matrix", some 1999, none, none,
             "pending", none, 0, none, none, none⟩,
            ⟨"n1", "u2", "s2", 603, "movie", "The Matrix", some 1999, none, none,
             "pending", none, 9, none, none, none⟩], [],
           [⟨"u2", "request_content", "Requested movie: The Matrix"⟩]⟩,
          ⟨[], 1⟩, ⟨[], 1⟩⟩)) := by
  constructor
  · exact claim6_duplicate_guard.1
      ⟨some ⟨"s1", none, none, none, none⟩, Except.error (), Except.error (),
        ⟨fun _ => Except.error (), Except.error (), Except.error ()⟩,
        ⟨fun _ => Except.error (), Except.error (), Except.error ()⟩⟩
      ⟨"u2", "user", some "s1", false⟩
      ⟨some 603, some "movie", some "The Matrix", some 1999, none, none, none⟩
      "n1" 9
      ⟨⟨[⟨"r1", "u1", "s1", 603, "movie", "The Matrix", some 1999, none, none,
          "pending", none, 0, none, none, none⟩], [], []⟩, ⟨[], 1⟩, ⟨[], 1⟩⟩
      603 "movie" "The Matrix" "s1" ⟨"s1", none, none, none, none⟩
      rfl (by decide) rfl (Or.inl rfl) rfl (by decide) rfl rfl rfl
      ⟨⟨"r1", "u1", "s1", 603, "movie", "The Matrix", some 1999, none, none,
          "pending", none, 0, none, none, none⟩,
        by decide, rfl, rfl, rfl, Or.inl rfl⟩
  · exact (claim6_duplicate_guard.2
      ⟨some ⟨"s2", none, none, none, none⟩, Except.error (), Except.error (),
        ⟨fun _ => Except.error (), Except.error (), Except.error ()⟩,
        ⟨fun _ => Except.error (), Except.error (), Except.error ()⟩⟩
      ⟨"u2", "user", some "s2", false⟩
      ⟨some 603, some "movie", some "The Matrix", some 1999, none, none, none⟩
      "n1" 9
      ⟨⟨[⟨"r1", "u1", "s1", 603, "movie", "The Matrix", some 1999, none, none,
          "pending", none, 0, none, none, none⟩], [], []⟩, ⟨[], 1⟩, ⟨[], 1⟩⟩
      603 "movie" "The Matrix" "s1" "s2" ⟨"s2", none, none, none, none⟩
      rfl (by decide) rfl (Or.inl rfl) rfl (by decide) rfl rfl rfl (by decide)
      (by intro r hr h1 h2
          simp only [List.mem_singleton] at hr
          subst hr
          rfl)
      rfl).trans (by decide)

/-- C10: creating a movie request first pre-checks the primary server's
movie manager: a listed movie with a file is rejected as already downloaded,
a monitored one as already being monitored (with a derived status), both
before any record is written; and when this pre-check itself fails with a
remote error the create proceeds to write the pending record anyway. -/
theorem claim10_create_radarr_precheck :
    (∀ (env : CreateEnv) (user : ReqUser) (body : CreateBody) (newId : String)
        (now : Nat) (st : SystemState) (tmdbId : Nat) (title S : String)
        (server : ServerRow) (ms : List RadarrMovieRec) (m : RadarrMovieRec),
      body.tmdbId = some tmdbId → tmdbId ≠ 0 →
      body.contentType = some "movie" →
      body.title = some title → title ≠ "" →
      user.primaryServerId = some S →
      env.server = some server →
      jsTruthyStr server.radarr_url = true →
      jsTruthyStr server.radarr_api_key = true →
      env.radarrMovies = Except.ok ms →
      ms.find? (fun x => x.tmdbId == tmdbId) = some m →
      m.hasFile = true →
      createRequest env user body newId now st
        = (.conflict "This movie is already downloaded in Radarr" (some "downloaded"), st)) ∧
    (∀ (env : CreateEnv) (user : ReqUser) (body : CreateBody) (newId : String)
        (now : Nat) (st : SystemState) (tmdbId : Nat) (title S : String)
        (server : ServerRow) (ms : List RadarrMovieRec) (m : RadarrMovieRec),
      body.tmdbId = some tmdbId → tmdbId ≠ 0 →
      body.contentType = some "movie" →
      body.title = some title → title ≠ "" →
      user.primaryServerId = some S →
      env.server = some server →
      jsTruthyStr server.radarr_url = true →
      jsTruthyStr server.radarr_api_key = true →
      env.radarrMovies = Except.ok ms →
      ms.find? (fun x => x.tmdbId == tmdbId) = some m →
      m.hasFile = false → m.monitored = true →
      createRequest env user body newId now st
        = (.conflict "This movie is already being monitored in Radarr"
            (some (if m.status == "released" then "missing" else "unreleased")), st)) ∧
    (∀ (env : CreateEnv) (user : ReqUser) (body : CreateBody) (newId : String)
        (now : Nat) (st : SystemState) (tmdbId : Nat) (title S : String)
        (server : ServerRow),
      body.tmdbId = some tmdbId → tmdbId ≠ 0 →
      body.contentType = some "movie" →
      body.title = some title → title ≠ "" →
      user.primaryServerId = some S →
      env.server = some server →
      jsTruthyStr server.radarr_url = true →
      jsTruthyStr server.radarr_api_key = true →
      env.radarrMovies = Except.error () →
      findDuplicate st.db.requests tmdbId "movie" S = none →
      user.canAddDirectly = false →
      createRequest env user body newId now st
        = (.created "Request submitted for approval" "pending" none newId,
           { st with db := { st.db with
              requests := st.db.requests
                ++ [⟨newId, user.id, S, tmdbId, "movie", title, body.year, body.overview,
                     body.posterPath, "pending", body.seasons, now, none, none, none⟩],
              auditLog := st.db.auditLog
                ++ [⟨user.id, "request_content", "Requested movie: " ++ title⟩] } })) := by
  refine ⟨?_, ?_, ?_⟩
  · intro env user body newId now st tmdbId title S server ms m
      htm htm0 hct hti hti0 hprim hsrv hru hrk hms hfind hfile
    have hpre : createPreCheck env server "movie" tmdbId title
        = some (.conflict "This movie is already downloaded in Radarr" (some "downloaded")) := by
      simp [createPreCheck, hru, hrk, hms, hfind, hfile]
    simp only [createRequest, htm, hct, hti, Option.getD_some, hprim, hsrv, hpre]
    simp [jsTruthyNat, jsTruthyStr, htm0, hti0]
  · intro env user body newId now st tmdbId title S server ms m
      htm htm0 hct hti hti0 hprim hsrv hru hrk hms hfind hfile hmon
    have hpre : createPreCheck env server "movie" tmdbId title
        = some (.conflict "This movie is already being monitored in Radarr"
            (some (if m.status == "released" then "missing" else "unreleased"))) := by
      simp [createPreCheck, hru, hrk, hms, hfind, hfile, hmon]
    simp only [createRequest, htm, hct, hti, Option.getD_some, hprim, hsrv, hpre]
    simp [jsTruthyNat, jsTruthyStr, htm0, hti0]
  · intro env user body newId now st tmdbId title S server
      htm htm0 hct hti hti0 hprim hsrv hru hrk hms hnodup hdirect
    have hpre : createPreCheck env server "movie" tmdbId title = none := by
      simp [createPreCheck, hru, hrk, hms]
    simp only [createRequest, htm, hct, hti, Option.getD_some, hprim, hsrv, hpre,
      hnodup, hdirect]
    simp [jsTruthyNat, jsTruthyStr, htm0, hti0]

/-- Witness for C10 at a concrete manager state: a downloaded movie, a
monitored released movie, and an erroring pre-check that lets the create
through. -/
theorem claim10_create_radarr_precheck_witness :
    (createRequest
        ⟨some ⟨"s1", some "http://r", some "k", none, none⟩,
          Except.ok [⟨10, 603, true, true, "released"⟩], Except.error (),
          ⟨fun _ => Except.error (), Except.error (), Except.error ()⟩,
          ⟨fun _ => Except.error (), Except.error (), Except.error ()⟩⟩
        ⟨"u1", "user", some "s1", false⟩
        ⟨some 603, some "movie", some "The Matrix", some 1999, none, none, none⟩
        "n1" 9 ⟨⟨[], [], []⟩, ⟨[], 1⟩, ⟨[], 1⟩⟩
      = (.conflict "This movie is already downloaded in Radarr" (some "downloaded"),
         ⟨⟨[], [], []⟩, ⟨[], 1⟩, ⟨[], 1⟩⟩)) ∧
    (createRequest
        ⟨some ⟨"s1", some "http://r", some "k", none, none⟩,
          Except.ok [⟨10, 603, false, true, "released"⟩], Except.error (),
          ⟨fun _ => Except.error (), Except.error (), Except.error ()⟩,
          ⟨fun _ => Except.error (), Except.error (), Except.error ()⟩⟩
        ⟨"u1", "user", some "s1", false⟩
        ⟨some 603, some "movie", some "The Matrix", some 1999, none, none, none⟩
        "n1" 9 ⟨⟨[], [], []⟩, ⟨[], 1⟩, ⟨[], 1⟩⟩
      = (.conflict "This movie is already being monitored in Radarr" (some "missing"),
         ⟨⟨[], [], []⟩, ⟨[], 1⟩, ⟨[], 1⟩⟩)) ∧
    (createRequest
        ⟨some ⟨"s1", some "http://r", some "k", none, none⟩,
          Except.error (), Except.error (),
          ⟨fun _ => Except.error (), Except.error (), Except.error ()⟩,
          ⟨fun _ => Except.error (), Except.error (), Except.error ()⟩⟩
        ⟨"u1", "user", some "s1", false⟩
        ⟨some 603, some "movie", some "The Matrix", some 1999, none, none, none⟩
        "n1" 9 ⟨⟨[], [], []⟩, ⟨[], 1⟩, ⟨[], 1⟩⟩
      = (.created "Request submitted for approval" "pending" none "n1",
         ⟨⟨[⟨"n1", "u1", "s1", 603, "movie", "The Matrix", some 1999, none, none,
             "pending", none, 9, none, none, none⟩], [],
           [⟨"u1", "request_content", "Requested movie: The Matrix"⟩]⟩,
          ⟨[], 1⟩, ⟨[], 1⟩⟩)) := by
  refine ⟨?_, ?_, ?_⟩
  · exact claim10_create_radarr_precheck.1
      ⟨some ⟨"s1", some "http://r", some "k", none, none⟩,
        Except.ok [⟨10, 603, true, true, "released"⟩], Except.error (),
        ⟨fun _ => Except.error (), Except.error (), Except.error ()⟩,
        ⟨fun _ => Except.error (), Except.error (), Except.error ()⟩⟩
      ⟨"u1", "user", some "s1", false⟩
      ⟨some 603, some "movie", some "The Matrix", some 1999, none, none, none⟩
      "n1" 9 ⟨⟨[], [], []⟩, ⟨[], 1⟩, ⟨[], 1⟩⟩
      603 "The Matrix" "s1" ⟨"s1", some "http://r", some "k", none, none⟩
      [⟨10, 603, true, true, "released"⟩] ⟨10, 603, true, true, "released"⟩
      rfl (by decide) rfl rfl (by decide) rfl rfl rfl rfl rfl rfl rfl
  · exact (claim10_create_radarr_precheck.2.1
      ⟨some ⟨"s1", some "http://r", some "k", none, none⟩,
        Except.ok [⟨10, 603, false, true, "released"⟩], Except.error (),
        ⟨fun _ => Except.error (), Except.error (), Except.error ()⟩,
        ⟨fun _ => Except.error (), Except.error (), Except.error ()⟩⟩
      ⟨"u1", "user", some "s1", false⟩
      ⟨some 603, some "movie", some "The Matrix", some 1999, none, none, none⟩
      "n1" 9 ⟨⟨[], [], []⟩, ⟨[], 1⟩, ⟨[], 1⟩⟩
      603 "The Matrix" "s1" ⟨"s1", some "http://r", some "k", none, none⟩
      [⟨10, 603, false, true, "released"⟩] ⟨10, 603, false, true, "released"⟩
      rfl (by decide) rfl rfl (by decide) rfl rfl rfl rfl rfl rfl rfl rfl).trans
      (by decide)
  · exact (claim10_create_radarr_precheck.2.2
      ⟨some ⟨"s1", some "http://r", some "k", none, none⟩,
        Except.error (), Except.error (),
        ⟨fun _ => Except.error (), Except.error (), Except.error ()⟩,
        ⟨fun _ => Except.error (), Except.error (), Except.error ()⟩⟩
      ⟨"u1", "user", some "s1", false⟩
      ⟨some 603, some "movie", some "The Matrix", some 1999, none, none, none⟩
      "n1" 9 ⟨⟨[], [], []⟩, ⟨[], 1⟩, ⟨[], 1⟩⟩
      603 "The Matrix" "s1" ⟨"s1", some "http://r", some "k", none, none⟩
      rfl (by decide) rfl rfl (by decide) rfl rfl rfl rfl rfl rfl rfl).trans
      (by decide)

/-- C9: a non-admin's request listing is exactly their own records and is
unaffected by other users' records — two table states whose own-record
sublists agree produce identical responses — while an admin's listing
contains every record. -/
theorem claim9_listing_isolation :
    (∀ (u : ReqUser) (rows1 rows2 : List ContentRequest)
        (users : List (String × String)) (sF tF : Option String),
      u.role ≠ "admin" →
      rows1.filter (fun r => r.userId == u.id)
        = rows2.filter (fun r => r.userId == u.id) →
      listRequests u rows1 users sF tF = listRequests u rows2 users sF tF) ∧
    (∀ (u : ReqUser) (rows : List ContentRequest) (users : List (String × String)),
      u.role ≠ "admin" →
      listRequests u rows users none none
        = (rows.filter (fun r => r.userId == u.id)).map (projectRequest users)) ∧
    (∀ (u : ReqUser) (rows : List ContentRequest) (users : List (String × String)),
      u.role = "admin" →
      listRequests u rows users none none = rows.map (projectRequest users)) := by
  refine ⟨?_, ?_, ?_⟩
  · intro u rows1 rows2 users sF tF hadm hfeq
    have hrole : (u.role == "admin") = false := beq_eq_false_iff_ne.mpr hadm
    have hsplit : ∀ rows : List ContentRequest,
        rows.filter (listCond u sF tF)
          = (rows.filter (fun r => r.userId == u.id)).filter
              (fun r => (!(jsTruthyStr sF) || sF == some r.status)
                && (!(jsTruthyStr tF) || tF == some r.contentType)) := by
      intro rows
      rw [List.filter_filter]
      apply List.filter_congr
      intro r _
      cases hown : (r.userId == u.id) <;>
        cases hs : (!(jsTruthyStr sF) || sF == some r.status) <;>
          cases ht : (!(jsTruthyStr tF) || tF == some r.contentType) <;>
            simp [listCond, hrole, hown, hs, ht]
    simp only [listRequests]
    rw [hsplit rows1, hsplit rows2, hfeq]
  · intro u rows users hadm
    have hrole : (u.role == "admin") = false := beq_eq_false_iff_ne.mpr hadm
    simp only [listRequests]
    rw [List.filter_congr (fun r _ => by
      simp [listCond, hrole, jsTruthyStr] : ∀ r ∈ rows,
        listCond u none none r = (r.userId == u.id))]
  · intro u rows users hadm
    have hrole : (u.role == "admin") = true := by simp [hadm]
    simp only [listRequests]
    rw [List.filter_congr (fun r _ => by
      simp [listCond, hrole, jsTruthyStr] : ∀ r ∈ rows,
        listCond u none none r = true)]
    simp

/-- Witness for C9: two table states differing only in another user's record
give the same listing to `u1`; the non-admin listing is exactly `u1`'s rows
and the admin listing is everything. -/
theorem claim9_listing_isolation_witness :
    (listRequests ⟨"u1", "user", none, false⟩
        [⟨"r1", "u1", "s1", 603, "movie", "A", none, none, none, "pending", none, 0,
           none, none, none⟩,
         ⟨"r2", "u2", "s1", 604, "movie", "B", none, none, none, "pending", none, 1,
           none, none, none⟩]
        [("u1", "alice")] none none
      = listRequests ⟨"u1", "user", none, false⟩
        [⟨"r1", "u1", "s1", 603, "movie", "A", none, none, none, "pending", none, 0,
           none, none, none⟩,
         ⟨"r3", "u3", "s2", 700, "tv", "C", none, none, none, "approved", none, 2,
           none, none, none⟩]
        [("u1", "alice")] none none) ∧
    (listRequests ⟨"u1", "user", none, false⟩
        [⟨"r1", "u1", "s1", 603, "movie", "A", none, none, none, "pending", none, 0,
           none, none, none⟩,
         ⟨"r2", "u2", "s1", 604, "movie", "B", none, none, none, "pending", none, 1,
           none, none, none⟩]
        [("u1", "alice")] none none
      = (([⟨"r1", "u1", "s1", 603, "movie", "A", none, none, none, "pending", none, 0,
            none, none, none⟩,
          ⟨"r2", "u2", "s1", 604, "movie", "B", none, none, none, "pending", none, 1,
            none, none, none⟩] : List ContentRequest).filter
            (fun r => r.userId == "u1")).map (projectRequest [("u1", "alice")])) ∧
    (listRequests ⟨"ua", "admin", none, false⟩
        [⟨"r1", "u1", "s1", 603, "movie", "A", none, none, none, "pending", none, 0,
           none, none, none⟩,
         ⟨"r2", "u2", "s1", 604, "movie", "B", none, none, none, "pending", none, 1,
           none, none, none⟩]
        [("u1", "alice")] none none
      = ([⟨"r1", "u1", "s1", 603, "movie", "A", none, none, none, "pending", none, 0,
            none, none, none⟩,
          ⟨"r2", "u2", "s1", 604, "movie", "B", none, none, none, "pending", none, 1,
            none, none, none⟩] : List ContentRequest).map
          (projectRequest [("u1", "alice")])) := by
  refine ⟨?_, ?_, ?_⟩
  · exact claim9_listing_isolation.1 ⟨"u1", "user", none, false⟩
      [⟨"r1", "u1", "s1", 603, "movie", "A", none, none, none, "pending", none, 0,
         none, none, none⟩,
       ⟨"r2", "u2", "s1", 604, "movie", "B", none, none, none, "pending", none, 1,
         none, none, none⟩]
      [⟨"r1", "u1", "s1", 603, "movie", "A", none, none, none, "pending", none, 0,
         none, none, none⟩,
       ⟨"r3", "u3", "s2", 700, "tv", "C", none, none, none, "approved", none, 2,
         none, none, none⟩]
      [("u1", "alice")] none none (by decide) (by decide)
  · exact claim9_listing_isolation.2.1 ⟨"u1", "user", none, false⟩
      [⟨"r1", "u1", "s1", 603, "movie", "A", none, none, none, "pending", none, 0,
         none, none, none⟩,
       ⟨"r2", "u2", "s1", 604, "movie", "B", none, none, none, "pending", none, 1,
         none, none, none⟩]
      [("u1", "alice")] (by decide)
  · exact claim9_listing_isolation.2.2 ⟨"ua", "admin", none, false⟩
      [⟨"r1", "u1", "s1", 603, "movie", "A", none, none, none, "pending", none, 0,
         none, none, none⟩,
       ⟨"r2", "u2", "s1", 604, "movie", "B", none, none, none, "pending", none, 1,
         none, none, none⟩]
      [("u1", "alice")] rfl

end BigFlix
